import Mathlib

/-!
Shallow embedding of `src/main.py` (Term_GPT, a Textual chat TUI).

Session ids `chat_%03d` are modelled by their numeric ordinal `Nat`; the
on-disk history directory is an association list from ordinal to the list
of lines of the corresponding `chat_XXX.jsonl` file.  All state mutated by
the handlers of `TerGptApp` is collected in `AppState`.  An operation that
would make the toolkit raise (mounting a second `TabPane` with an id that
already exists raises `DuplicateIds` in Textual) returns `false` as its
second component and the state at the point of the raise; `true` means the
handler ran to completion.
-/

namespace TermGpt

/-- Python `str.strip()` whitespace test, restricted to the ASCII
whitespace characters relevant here. -/
def isPySpace (c : Char) : Bool := c == ' ' || c == '\t' || c == '\n' || c == '\r'

/-- Drop leading whitespace characters. -/
def dropSpaces : List Char → List Char
  | [] => []
  | c :: rest => if isPySpace c then dropSpaces rest else c :: rest

/-- Python `str.strip()`: remove leading and trailing whitespace. -/
def pyStrip (s : String) : String :=
  String.mk ((dropSpaces ((dropSpaces s.data).reverse)).reverse)

/-- Python `str.startswith(t)`. -/
def strStarts (s t : String) : Bool := List.isPrefixOf t.data s.data

/-- Python slicing `s[n:]` (by characters). -/
def strDrop (s : String) (n : Nat) : String := String.mk (s.data.drop n)

/-- Python `"%03d" % n`: zero-pad to at least three digits. -/
def fmt3 (n : Nat) : String :=
  if n < 10 then "00" ++ toString n
  else if n < 100 then "0" ++ toString n
  else toString n

/-- The session id string `chat_%03d` (source: `f"chat_{n:03d}"`). -/
def sessionName (n : Nat) : String := "chat_" ++ fmt3 n

/-- One persisted record as written by `save_message`
(`{"ts": ..., "role": ..., "content": ...}`). -/
structure LogRecord where
  ts : String
  role : String
  content : String
deriving DecidableEq, Repr

/-- One line of a `chat_XXX.jsonl` file: a well-formed record, a line on
which `json.loads` raises, or a blank line. -/
inductive LogEntry where
  | ok (r : LogRecord)
  | malformed (raw : String)
  | blank
deriving DecidableEq, Repr

/-- A message bubble mounted in a chat view (`Markdown(content, classes=f"bubble {role}")`). -/
structure Bubble where
  role : String
  content : String
deriving DecidableEq, Repr

/-- A `TabPane` of the `TabbedContent`: widget id (session ordinal) and title. -/
structure Pane where
  id : Nat
  title : String
deriving DecidableEq, Repr

/-- A leaf of the navigation tree: `data` (session ordinal) and label. -/
structure TNode where
  data : Nat
  label : String
deriving DecidableEq, Repr

/-- A `Tree.NodeSelected` event: whether the node is the root, and its
`data` (`none` models missing/empty data, which the handler ignores). -/
structure TreeEvent where
  isRoot : Bool
  data : Option Nat
deriving DecidableEq, Repr

/-- The mutable state of `TerGptApp` together with the history directory. -/
structure AppState where
  panes : List Pane
  active : Option Nat
  views : List (Nat × List Bubble)
  treeNodes : List TNode
  treeSelected : Option Nat
  lastTreeSid : Option Nat
  syncing : Bool
  inputText : String
  logs : List (Nat × List LogEntry)
deriving DecidableEq, Repr

/-- Lookup in an association list keyed by session ordinal. -/
def vlookup : List (Nat × α) → Nat → Option α
  | [], _ => none
  | (k, v) :: rest, sid => if k = sid then some v else vlookup rest sid

/-- Replace the value at a key, or insert it if absent (dict assignment). -/
def vset : List (Nat × α) → Nat → α → List (Nat × α)
  | [], sid, a => [(sid, a)]
  | (k, v) :: rest, sid, a => if k = sid then (sid, a) :: rest else (k, v) :: vset rest sid a

/-- Append one element to the list stored at a key, creating the entry if
absent (file `open(path, "a")`, and `_current_view` followed by `mount`). -/
def appendAt : List (Nat × List α) → Nat → α → List (Nat × List α)
  | [], sid, a => [(sid, [a])]
  | (k, v) :: rest, sid, a =>
    if k = sid then (k, v ++ [a]) :: rest else (k, v) :: appendAt rest sid a

/-- Remove the entry at a key (dict `pop` / `os.remove`). -/
def vremove : List (Nat × α) → Nat → List (Nat × α)
  | [], _ => []
  | (k, v) :: rest, sid => if k = sid then vremove rest sid else (k, v) :: vremove rest sid

/-- Apply a function to the value stored at a key, if present. -/
def mapAtKey : List (Nat × α) → Nat → (α → α) → List (Nat × α)
  | [], _, _ => []
  | (k, v) :: rest, sid, f => if k = sid then (k, f v) :: rest else (k, v) :: mapAtKey rest sid f

/-- Source `ensure_history_dir` + `open(session_file(sid), "a").close()`:
create an empty log file when none exists. -/
def touchFile (logs : List (Nat × List LogEntry)) (sid : Nat) : List (Nat × List LogEntry) :=
  if (vlookup logs sid).isSome then logs else logs ++ [(sid, [])]

/-- Source `list_session_ids`: files matching `^chat_(\d{3})\.jsonl$`
(exactly three digits, hence ordinal < 1000), sorted ascending by ordinal. -/
def listSessionIds (logs : List (Nat × List LogEntry)) : List Nat :=
  List.insertionSort (· ≤ ·) ((logs.map Prod.fst).filter (fun n => decide (n < 1000)))

/-- Source `next_session_id`: `chat_001` when no session file exists, else
the last (largest) listed ordinal plus one. -/
def nextSessionId (logs : List (Nat × List LogEntry)) : Nat :=
  match (listSessionIds logs).getLast? with
  | none => 1
  | some last => last + 1

/-- Source `remove_pane` / fallback `pane.remove()`: drop the pane with the
given id. -/
def removePane : List Pane → Nat → List Pane
  | [], _ => []
  | p :: rest, sid => if p.id = sid then removePane rest sid else p :: removePane rest sid

/-- Drop the tree node carrying the given session ordinal. -/
def removeNode : List TNode → Nat → List TNode
  | [], _ => []
  | n :: rest, sid => if n.data = sid then removeNode rest sid else n :: removeNode rest sid

/-- Set the title of the pane with the given id (`pane.title = ...`). -/
def setPaneTitle : List Pane → Nat → String → List Pane
  | [], _, _ => []
  | p :: rest, sid, t => if p.id = sid then ⟨p.id, t⟩ :: rest else p :: setPaneTitle rest sid t

/-- Set the label of the tree node with the given data (`node.set_label`). -/
def setNodeLabel : List TNode → Nat → String → List TNode
  | [], _, _ => []
  | n :: rest, sid, t => if n.data = sid then ⟨n.data, t⟩ :: rest else n :: setNodeLabel rest sid t

/-- Source `get_pane`: the pane whose widget id is the session id, if any. -/
def getPane (st : AppState) (sid : Nat) : Option Pane :=
  st.panes.find? (fun p => p.id == sid)

/-- Welcome bubble of a fresh chat (source line 295). -/
def welcomeMsg : String := "_New chat started. Press Ctrl+Enter to send._"

/-- Refusal bubble when closing the last tab (source line 342). -/
def cantCloseMsg : String := "_Can\x27t close the last chat. Create a new one first (Ctrl+N)._"

/-- Transient placeholder bubble (source line 515). -/
def thinkingMsg : String := "_Thinking…_"

/-- Warning bubble shown when `load_history` catches an exception (source
line 453; the interpolated exception text is abstracted to a fixed marker). -/
def loadErrMsg (sid : Nat) : String :=
  "_Couldn\x27t load history for " ++ sessionName sid ++ ": error_"

/-- The command marker `"/rename "` tested by `startswith` (source line 485). -/
def renameMarker : String := "/rename "

/-- Source `add_message`: mount a bubble in the session view, via
`_current_view`, which creates (and registers) a fresh view when none
exists for the session. -/
def addMessage (st : AppState) (sid : Nat) (role content : String) : AppState :=
  { st with views := appendAt st.views sid ⟨role, content⟩ }

/-- Source `save_message`: append one record to the session log file,
creating the file when absent. -/
def saveMessage (st : AppState) (sid : Nat) (now role content : String) : AppState :=
  { st with logs := appendAt st.logs sid (LogEntry.ok ⟨now, role, content⟩) }

/-- The bubbles mounted by the `load_history` loop: blank lines skipped,
well-formed records displayed in order; the first malformed line raises,
so the surrounding `try` displays the warning bubble and the loop aborts
(records after it are never read). -/
def readLogBubbles (sid : Nat) : List LogEntry → List Bubble
  | [] => []
  | LogEntry.blank :: rest => readLogBubbles sid rest
  | LogEntry.ok r :: rest => ⟨r.role, r.content⟩ :: readLogBubbles sid rest
  | LogEntry.malformed _ :: _ => [⟨"system", loadErrMsg sid⟩]

/-- Source `load_history`: nothing when the file does not exist, else
mount each resulting bubble with `add_message`. -/
def loadHistory (st : AppState) (sid : Nat) : AppState :=
  match vlookup st.logs sid with
  | none => st
  | some entries =>
    (readLogBubbles sid entries).foldl (fun s b => addMessage s sid b.role b.content) st

/-- Source `_select_tree_node`: programmatically select the node for the
session, if registered, and update `_last_tree_sid` (the caller brackets
this with `_syncing_ui`). -/
def selectTreeNode (st : AppState) (sid : Nat) : AppState :=
  match st.treeNodes.find? (fun n => n.data == sid) with
  | none => st
  | some _ => { st with treeSelected := some sid, lastTreeSid := some sid }

/-- The `self._syncing_ui = True / try ... finally self._syncing_ui = False`
bracket: the body runs with the flag set and the flag is reset to `False`
on every exit path, also when the body raises (second component `false`). -/
def withSyncing (f : AppState → AppState × Bool) (st : AppState) : AppState × Bool :=
  let r := f { st with syncing := true }
  ({ r.1 with syncing := false }, r.2)

/-- Source `_add_tree_node_for_session`: append a leaf under the root. -/
def addTreeNode (st : AppState) (sid : Nat) (label : String) : AppState :=
  { st with treeNodes := st.treeNodes ++ [⟨sid, label⟩] }

/-- Python `title or session_id`: `None` and the empty string fall back. -/
def pyOr (t : Option String) (d : String) : String :=
  match t with
  | none => d
  | some s => if s = "" then d else s

/-- Source `_create_tab_for_session`.  Mounting a pane whose widget id is
already taken raises in the toolkit (`DuplicateIds`), aborting the handler:
modelled by the `false` result with the pane not added. -/
def createTabForSession (st : AppState) (sid : Nat)
    (switch loadHist welcome : Bool) (title : Option String) : AppState × Bool :=
  if (getPane st sid).isSome then (st, false)
  else
    let st1 := { st with panes := st.panes ++ [Pane.mk sid (pyOr title (sessionName sid))] }
    let st2 := if switch then { st1 with active := some sid } else st1
    let st3 := { st2 with views := vset st2.views sid [] }
    if loadHist then (loadHistory st3 sid, true)
    else if welcome then (addMessage st3 sid "system" welcomeMsg, true)
    else (st3, true)

/-- Source `action_new_tab`: mint the next id, touch its log file, create
the pane (switched, with welcome bubble), add the tree node, and silently
sync the tree selection. -/
def actionNewTab (st : AppState) : AppState × Bool :=
  let sid := nextSessionId st.logs
  let st0 := { st with logs := touchFile st.logs sid }
  match createTabForSession st0 sid true false true none with
  | (st1, false) => (st1, false)
  | (st1, true) =>
    let st2 := addTreeNode st1 sid (sessionName sid)
    withSyncing (fun s => (selectTreeNode s sid, true)) st2

/-- Source `_close_tab_only`: refuse when at most one pane is open;
otherwise remove the pane and its view, activate the next pane (or the
previous one when closing the last-positioned pane) and silently sync the
tree selection.  The log file and the tree node are not touched. -/
def closeTabOnly (st : AppState) (sid : Nat) : AppState :=
  if st.panes.length ≤ 1 then
    addMessage st sid "system" cantCloseMsg
  else
    let idx := (st.panes.findIdx? (fun p => p.id == sid)).getD 0
    let newIdx := if idx < st.panes.length - 1 then idx + 1 else idx - 1
    let newActive := ((st.panes[newIdx]?).map Pane.id).getD 0
    let st1 := { st with panes := removePane st.panes sid, views := vremove st.views sid }
    let remaining := st1.panes.map Pane.id
    if remaining.isEmpty then st1
    else
      let activeId := if remaining.contains newActive then newActive else remaining.headD 0
      let st2 := { st1 with active := some activeId }
      (withSyncing (fun s => (selectTreeNode s activeId, true)) st2).1

/-- Source `_remove_tree_node`: drop the node, then silently select the
first remaining child, or clear the selection when none remain. -/
def removeTreeNode (st : AppState) (sid : Nat) : AppState :=
  let st1 := { st with treeNodes := removeNode st.treeNodes sid }
  match st1.treeNodes.head? with
  | some n =>
    (withSyncing (fun s =>
      ({ s with treeSelected := some n.data, lastTreeSid := some n.data }, true)) st1).1
  | none =>
    (withSyncing (fun s =>
      ({ s with treeSelected := none, lastTreeSid := none }, true)) st1).1

/-- Tail of `_permanently_delete_chat` after the only-tab guard: close the
pane, delete the log file (`os.remove`, modelled as succeeding) and remove
the tree node. -/
def finishDelete (st : AppState) (sid : Nat) : AppState × Bool :=
  let st1 := closeTabOnly st sid
  let st2 := { st1 with logs := vremove st1.logs sid }
  (removeTreeNode st2 sid, true)

/-- Source `_permanently_delete_chat`: when this is the only tab, first
create a fresh chat (new id, empty file, welcome pane, tree node, silent
selection), then close the pane, delete the file and remove the node. -/
def permanentlyDeleteChat (st : AppState) (sid : Nat) : AppState × Bool :=
  if st.panes.length ≤ 1 then
    let newSid := nextSessionId st.logs
    let st0 := { st with logs := touchFile st.logs newSid }
    match createTabForSession st0 newSid true false true none with
    | (st1, false) => (st1, false)
    | (st1, true) =>
      let st2 := addTreeNode st1 newSid (sessionName newSid)
      let st3 := (withSyncing (fun s => (selectTreeNode s newSid, true)) st2).1
      finishDelete st3 sid
  else finishDelete st sid

/-- Source `action_close_tab` (Ctrl+W): permanently delete the active chat. -/
def actionCloseTab (st : AppState) : AppState × Bool :=
  match st.active with
  | none => (st, true)
  | some sid => permanentlyDeleteChat st sid

/-- Source `action_rename_tab` (F2): empty input generates the timestamp
title `Chat <now>`; non-empty input is used as the title and the field is
cleared; pane title and tree label are both updated.  The `except` fallback
for toolkits without relabel support is not modelled. -/
def actionRenameTab (st : AppState) (now : String) : AppState :=
  match st.active with
  | none => st
  | some sid =>
    let raw := pyStrip st.inputText
    let newTitle := if raw = "" then "Chat " ++ now else raw
    let st1 := if raw = "" then st else { st with inputText := "" }
    match getPane st1 sid with
    | none => st1
    | some _ =>
      let st2 := { st1 with panes := setPaneTitle st1.panes sid newTitle }
      match st2.treeNodes.find? (fun n => n.data == sid) with
      | none => st2
      | some _ => { st2 with treeNodes := setNodeLabel st2.treeNodes sid newTitle }

/-- Source `on_tree_node_selected`: inert on the root node, while
`_syncing_ui` is set, or without node data; records `_last_tree_sid`, is a
no-op when the session is already active, re-activates an existing pane, or
recreates a closed pane from history. -/
def onTreeNodeSelected (st : AppState) (ev : TreeEvent) : AppState × Bool :=
  if ev.isRoot || st.syncing then (st, true)
  else
    match ev.data with
    | none => (st, true)
    | some sid =>
      let st1 := { st with lastTreeSid := some sid }
      if st1.active = some sid then (st1, true)
      else if (getPane st1 sid).isSome then ({ st1 with active := some sid }, true)
      else createTabForSession st1 sid true true false none

/-- Remove the first bubble with role `status` from a view. -/
def removeFirstStatus : List Bubble → List Bubble
  | [] => []
  | b :: rest => if b.role = "status" then rest else b :: removeFirstStatus rest

/-- Remove the last bubble with role `status` from a view: the placeholder
that `model_response` just mounted (widget identity abstracted). -/
def removeLastStatus (l : List Bubble) : List Bubble :=
  (removeFirstStatus l.reverse).reverse

/-- Effect of `typing_md.remove()`: drop the placeholder from the session
view; a no-op when the view itself is gone. -/
def removeStatusWidget (st : AppState) (sid : Nat) : AppState :=
  { st with views := mapAtKey st.views sid removeLastStatus }

/-- The `/rename ` branch of `model_response`: clear the field, set the
pane title to the argument (keeping the old title when the argument strips
to empty) and relabel the tree node when the argument is non-empty. -/
def renameCmd (st : AppState) (sid : Nat) (promptText : String) : AppState :=
  let newTitle := pyStrip (strDrop promptText renameMarker.length)
  let st1 := { st with inputText := "" }
  match getPane st1 sid with
  | none => st1
  | some pane =>
    let t := if newTitle = "" then pane.title else newTitle
    let st2 := { st1 with panes := setPaneTitle st1.panes sid t }
    if newTitle = "" then st2
    else
      match st2.treeNodes.find? (fun n => n.data == sid) with
      | none => st2
      | some _ => { st2 with treeNodes := setNodeLabel st2.treeNodes sid newTitle }

/-- The synchronous part of `model_response`, up to the `await` of the
completion call: no-op without an active session or with blank input;
command interception; otherwise display + persist the user turn, clear the
field, mount the placeholder and dispatch (the returned `some sid` marks a
dispatched request for the session). -/
def sendPhase (st : AppState) (now : String) : (AppState × Bool) × Option Nat :=
  match st.active with
  | none => ((st, true), none)
  | some sid =>
    let promptText := pyStrip st.inputText
    if promptText = "" then ((st, true), none)
    else if strStarts promptText renameMarker then ((renameCmd st sid promptText, true), none)
    else if promptText = "/new" then (actionNewTab { st with inputText := "" }, none)
    else if promptText = "/close" then (actionCloseTab { st with inputText := "" }, none)
    else if promptText = "/delete" then
      (permanentlyDeleteChat { st with inputText := "" } sid, none)
    else
      let st1 := addMessage st sid "user" promptText
      let st2 := saveMessage st1 sid now "user" promptText
      let st3 := { st2 with inputText := "" }
      let st4 := addMessage st3 sid "status" thinkingMsg
      ((st4, true), some sid)

/-- Delivery of a completed request for the session that dispatched it:
remove the placeholder, display the output (or the `**Error:** ...`
summary built from the caught exception) and persist it. -/
def deliverPhase (st : AppState) (sid : Nat) (now : String)
    (outcome : Except String String) : AppState :=
  let output :=
    match outcome with
    | Except.ok text => text
    | Except.error e => "**Error:** `" ++ e ++ "`"
  let st1 := removeStatusWidget st sid
  let st2 := addMessage st1 sid "assistant" output
  saveMessage st2 sid now "assistant" output

/-- Source `model_response`, run without interleaved events: the
synchronous send phase followed, when a request was dispatched, by the
delivery of its outcome. -/
def modelResponse (st : AppState) (now : String)
    (outcome : Except String String) : AppState × Bool :=
  match sendPhase st now with
  | ((st1, okFlag), none) => (st1, okFlag)
  | ((st1, _), some sid) => (deliverPhase st1 sid now outcome, true)

/-- Source `action_send` / the Ctrl+Enter key handler. -/
def actionSend (st : AppState) (now : String)
    (outcome : Except String String) : AppState × Bool :=
  modelResponse st now outcome

/-- The loop of `on_mount` over existing sessions: create an unswitched
pane with history loaded, plus a tree node, for each listed session. -/
def mountLoop : AppState → List Nat → AppState × Bool
  | st, [] => (st, true)
  | st, sid :: rest =>
    match createTabForSession st sid false true false none with
    | (st1, false) => (st1, false)
    | (st1, true) => mountLoop (addTreeNode st1 sid (sessionName sid)) rest

/-- Source `on_mount`, starting from the given history directory: wire up
all listed sessions (or create a fresh one when none exist), with the tree
handler silenced for the whole setup. -/
def onMount (disk : List (Nat × List LogEntry)) : AppState × Bool :=
  let st0 : AppState :=
    { panes := [], active := none, views := [], treeNodes := [],
      treeSelected := none, lastTreeSid := none, syncing := false,
      inputText := "", logs := disk }
  withSyncing (fun s =>
    let existing := listSessionIds disk
    if existing.isEmpty then
      let sid := nextSessionId s.logs
      let s1 := { s with logs := touchFile s.logs sid }
      match createTabForSession s1 sid true false true none with
      | (s2, false) => (s2, false)
      | (s2, true) =>
        let s3 := addTreeNode s2 sid (sessionName sid)
        (selectTreeNode s3 sid, true)
    else
      match mountLoop s existing with
      | (s1, false) => (s1, false)
      | (s1, true) =>
        let s2 := { s1 with active := existing.getLast? }
        (selectTreeNode s2 (existing.getLastD 0), true)) st0

/-- The user operations quantified over in the session-existence claim. -/
inductive Op where
  | newTab
  | closeTab (sid : Nat)
  | deleteChat (sid : Nat)
deriving DecidableEq, Repr

/-- Apply one user operation (crashes keep the state at the raise point). -/
def applyOp (st : AppState) : Op → AppState
  | Op.newTab => (actionNewTab st).1
  | Op.closeTab sid => closeTabOnly st sid
  | Op.deleteChat sid => (permanentlyDeleteChat st sid).1

/-- Apply a sequence of user operations. -/
def applyOps (st : AppState) (ops : List Op) : AppState :=
  ops.foldl applyOp st

/-- The bubbles that reloading the given session log produces (none when
the file does not exist). -/
def logBubbles (logs : List (Nat × List LogEntry)) (sid : Nat) : List Bubble :=
  match vlookup logs sid with
  | none => []
  | some entries => readLogBubbles sid entries

/-- The pane with the given widget id in a pane list. -/
def paneFind (l : List Pane) (sid : Nat) : Option Pane :=
  l.find? (fun p => p.id == sid)

/-- Number of persisted records with the UI-only role `status`. -/
def okStatusCount : List LogEntry → Nat
  | [] => 0
  | LogEntry.ok r :: rest => (if r.role = "status" then 1 else 0) + okStatusCount rest
  | _ :: rest => okStatusCount rest

/-- Number of persisted `status` records in one session log. -/
def logStatus (logs : List (Nat × List LogEntry)) (sid : Nat) : Nat :=
  match vlookup logs sid with
  | none => 0
  | some entries => okStatusCount entries

theorem vlookup_appendAt_self (l : List (Nat × List α)) (sid : Nat) (a : α) :
    vlookup (appendAt l sid a) sid = some ((vlookup l sid).getD [] ++ [a]) := by
  induction l with
  | nil => simp [appendAt, vlookup]
  | cons hd t ih =>
    obtain ⟨k, v⟩ := hd
    by_cases hk : k = sid <;> simp [appendAt, vlookup, hk, ih]

theorem vlookup_appendAt_ne (l : List (Nat × List α)) (sid k : Nat) (a : α) (h : k ≠ sid) :
    vlookup (appendAt l sid a) k = vlookup l k := by
  induction l with
  | nil => simp [appendAt, vlookup, h, Ne.symm h]
  | cons hd t ih =>
    obtain ⟨k', v⟩ := hd
    by_cases hk : k' = sid
    · subst hk
      simp [appendAt, vlookup, Ne.symm h]
    · by_cases hk2 : k' = k <;> simp [appendAt, vlookup, hk, hk2, h, ih]

theorem vlookup_vset_self (l : List (Nat × α)) (sid : Nat) (a : α) :
    vlookup (vset l sid a) sid = some a := by
  induction l with
  | nil => simp [vset, vlookup]
  | cons hd t ih =>
    obtain ⟨k, v⟩ := hd
    by_cases hk : k = sid <;> simp [vset, vlookup, hk, ih]

theorem vlookup_vset_ne (l : List (Nat × α)) (sid k : Nat) (a : α) (h : k ≠ sid) :
    vlookup (vset l sid a) k = vlookup l k := by
  induction l with
  | nil => simp [vset, vlookup, Ne.symm h]
  | cons hd t ih =>
    obtain ⟨k', v⟩ := hd
    by_cases hk : k' = sid
    · subst hk
      simp [vset, vlookup, Ne.symm h]
    · by_cases hk2 : k' = k <;> simp [vset, vlookup, hk, hk2, h, ih]

theorem vlookup_vremove_self (l : List (Nat × α)) (sid : Nat) :
    vlookup (vremove l sid) sid = none := by
  induction l with
  | nil => simp [vremove, vlookup]
  | cons hd t ih =>
    obtain ⟨k, v⟩ := hd
    by_cases hk : k = sid <;> simp [vremove, vlookup, hk, ih]

theorem vlookup_vremove_ne (l : List (Nat × α)) (sid k : Nat) (h : k ≠ sid) :
    vlookup (vremove l sid) k = vlookup l k := by
  induction l with
  | nil => simp [vremove, vlookup]
  | cons hd t ih =>
    obtain ⟨k', v⟩ := hd
    by_cases hk : k' = sid
    · subst hk
      simp [vremove, vlookup, Ne.symm h, ih]
    · by_cases hk2 : k' = k <;> simp [vremove, vlookup, hk, hk2, h, ih]

theorem vlookup_mapAtKey_self (l : List (Nat × α)) (sid : Nat) (f : α → α) :
    vlookup (mapAtKey l sid f) sid = (vlookup l sid).map f := by
  induction l with
  | nil => simp [mapAtKey, vlookup]
  | cons hd t ih =>
    obtain ⟨k, v⟩ := hd
    by_cases hk : k = sid <;> simp [mapAtKey, vlookup, hk, ih]

theorem vlookup_mapAtKey_ne (l : List (Nat × α)) (sid k : Nat) (f : α → α) (h : k ≠ sid) :
    vlookup (mapAtKey l sid f) k = vlookup l k := by
  induction l with
  | nil => simp [mapAtKey, vlookup]
  | cons hd t ih =>
    obtain ⟨k', v⟩ := hd
    by_cases hk : k' = sid
    · subst hk
      simp [mapAtKey, vlookup, Ne.symm h, ih]
    · by_cases hk2 : k' = k <;> simp [mapAtKey, vlookup, hk, hk2, h, ih]

theorem vlookup_append_single_of_none (l : List (Nat × α)) (sid k : Nat) (v : α)
    (h : vlookup l k = none) :
    vlookup (l ++ [(sid, v)]) k = if sid = k then some v else none := by
  induction l with
  | nil => simp [vlookup]
  | cons hd t ih =>
    obtain ⟨k', w⟩ := hd
    by_cases hk : k' = k
    · simp [vlookup, hk] at h
    · simp [vlookup, hk] at h ⊢
      exact ih h

theorem vlookup_append_single_of_some (l : List (Nat × α)) (sid k : Nat) (v w : α)
    (h : vlookup l k = some w) :
    vlookup (l ++ [(sid, v)]) k = some w := by
  induction l with
  | nil => simp [vlookup] at h
  | cons hd t ih =>
    obtain ⟨k', w'⟩ := hd
    by_cases hk : k' = k
    · simp [vlookup, hk] at h ⊢
      exact h
    · simp [vlookup, hk] at h ⊢
      exact ih h

theorem vlookup_touchFile_self (logs : List (Nat × List LogEntry)) (sid : Nat) :
    vlookup (touchFile logs sid) sid = some ((vlookup logs sid).getD []) := by
  unfold touchFile
  cases hv : vlookup logs sid with
  | some v => simp [hv]
  | none =>
    simp [hv]
    rw [vlookup_append_single_of_none logs sid sid [] hv]
    simp

theorem vlookup_touchFile_ne (logs : List (Nat × List LogEntry)) (sid k : Nat) (h : k ≠ sid) :
    vlookup (touchFile logs sid) k = vlookup logs k := by
  unfold touchFile
  cases hv : vlookup logs sid with
  | some v => simp [hv]
  | none =>
    simp [hv]
    cases hk : vlookup logs k with
    | some w => exact vlookup_append_single_of_some logs sid k [] w hk
    | none =>
      rw [vlookup_append_single_of_none logs sid k [] hk]
      simp [Ne.symm h]

theorem addMessage_proj (st : AppState) (sid : Nat) (r c : String) :
    (addMessage st sid r c).panes = st.panes ∧ (addMessage st sid r c).logs = st.logs ∧
    (addMessage st sid r c).active = st.active ∧ (addMessage st sid r c).syncing = st.syncing ∧
    (addMessage st sid r c).treeNodes = st.treeNodes ∧
    (addMessage st sid r c).inputText = st.inputText ∧
    (addMessage st sid r c).lastTreeSid = st.lastTreeSid ∧
    (addMessage st sid r c).treeSelected = st.treeSelected := by
  simp [addMessage]

theorem foldl_addMessage_eq (bs : List Bubble) (st : AppState) (sid : Nat) :
    bs.foldl (fun s b => addMessage s sid b.role b.content) st
      = { st with views := bs.foldl (fun v b => appendAt v sid b) st.views } := by
  induction bs generalizing st with
  | nil => rfl
  | cons b t ih =>
    simp only [List.foldl_cons, ih]
    rfl

theorem vlookup_foldl_appendAt_some (bs : List Bubble) (l : List (Nat × List Bubble))
    (sid : Nat) (v : List Bubble) (h : vlookup l sid = some v) :
    vlookup (bs.foldl (fun acc b => appendAt acc sid b) l) sid = some (v ++ bs) := by
  induction bs generalizing l v with
  | nil => simp [h]
  | cons b t ih =>
    have h1 : vlookup (appendAt l sid b) sid = some (v ++ [b]) := by
      rw [vlookup_appendAt_self, h]
      rfl
    simpa using ih (appendAt l sid b) (v ++ [b]) h1

theorem vlookup_foldl_appendAt_ne (bs : List Bubble) (l : List (Nat × List Bubble))
    (sid k : Nat) (h : k ≠ sid) :
    vlookup (bs.foldl (fun acc b => appendAt acc sid b) l) k = vlookup l k := by
  induction bs generalizing l with
  | nil => rfl
  | cons b t ih => simpa [vlookup_appendAt_ne _ _ _ _ h] using ih (appendAt l sid b)

theorem vlookup_foldl_appendAt_cons (b : Bubble) (bs : List Bubble)
    (l : List (Nat × List Bubble)) (sid : Nat) :
    vlookup ((b :: bs).foldl (fun acc b => appendAt acc sid b) l) sid
      = some ((vlookup l sid).getD [] ++ b :: bs) := by
  have h1 : vlookup (appendAt l sid b) sid = some ((vlookup l sid).getD [] ++ [b]) :=
    vlookup_appendAt_self l sid b
  simpa using vlookup_foldl_appendAt_some bs (appendAt l sid b) sid _ h1

theorem loadHistory_eq (st : AppState) (sid : Nat) :
    loadHistory st sid
      = { st with views := (logBubbles st.logs sid).foldl (fun v b => appendAt v sid b) st.views } := by
  unfold loadHistory logBubbles
  cases h : vlookup st.logs sid with
  | none => simp
  | some entries => simp [foldl_addMessage_eq]

theorem selectTreeNode_proj (st : AppState) (sid : Nat) :
    (selectTreeNode st sid).panes = st.panes ∧ (selectTreeNode st sid).logs = st.logs ∧
    (selectTreeNode st sid).views = st.views ∧ (selectTreeNode st sid).treeNodes = st.treeNodes ∧
    (selectTreeNode st sid).syncing = st.syncing ∧ (selectTreeNode st sid).active = st.active ∧
    (selectTreeNode st sid).inputText = st.inputText := by
  unfold selectTreeNode
  cases h : st.treeNodes.find? (fun n => n.data == sid) <;> simp

theorem withSyncing_fst (f : AppState → AppState × Bool) (st : AppState) :
    (withSyncing f st).1 = { (f { st with syncing := true }).1 with syncing := false } := rfl

theorem withSyncing_snd (f : AppState → AppState × Bool) (st : AppState) :
    (withSyncing f st).2 = (f { st with syncing := true }).2 := rfl

theorem getPane_eq_none_iff (st : AppState) (sid : Nat) :
    getPane st sid = none ↔ sid ∉ st.panes.map Pane.id := by
  unfold getPane
  rw [List.find?_eq_none]
  constructor
  · intro h hmem
    obtain ⟨p, hp, hid⟩ := List.mem_map.mp hmem
    exact h p hp (by simp [hid])
  · intro h p hp hbeq
    exact h (List.mem_map.mpr ⟨p, hp, by simpa using hbeq⟩)

theorem paneFind_append_self (l : List Pane) (p : Pane) (sid : Nat) (hid : p.id = sid) :
    paneFind l sid = none → paneFind (l ++ [p]) sid = some p := by
  induction l with
  | nil =>
    intro _
    unfold paneFind
    exact List.find?_cons_of_pos _ (by simp [hid])
  | cons q t ih =>
    intro h
    unfold paneFind at h ⊢
    by_cases hq : q.id = sid
    · rw [List.find?_cons_of_pos _ (by simp [hq])] at h
      cases h
    · rw [List.find?_cons_of_neg _ (by simp [hq])] at h
      rw [List.cons_append, List.find?_cons_of_neg _ (by simp [hq])]
      exact ih h

theorem createTab_crash (st : AppState) (sid : Nat) (sw lh w : Bool) (t : Option String)
    (h : (getPane st sid).isSome) :
    createTabForSession st sid sw lh w t = (st, false) := by
  unfold createTabForSession
  simp [h]

theorem createTab_ok_proj (st : AppState) (sid : Nat) (sw lh w : Bool) (t : Option String)
    (h : getPane st sid = none) :
    (createTabForSession st sid sw lh w t).2 = true ∧
    (createTabForSession st sid sw lh w t).1.panes
      = st.panes ++ [Pane.mk sid (pyOr t (sessionName sid))] ∧
    (createTabForSession st sid sw lh w t).1.logs = st.logs ∧
    (createTabForSession st sid sw lh w t).1.treeNodes = st.treeNodes ∧
    (createTabForSession st sid sw lh w t).1.syncing = st.syncing ∧
    (createTabForSession st sid sw lh w t).1.inputText = st.inputText ∧
    (createTabForSession st sid sw lh w t).1.active = (if sw then some sid else st.active) := by
  have hn : (getPane st sid).isSome = false := by simp [h]
  unfold createTabForSession
  cases sw <;> cases lh <;> cases w <;> simp [hn, loadHistory_eq, addMessage]

theorem createTab_ok_views (st : AppState) (sid : Nat) (sw lh w : Bool) (t : Option String)
    (h : getPane st sid = none) :
    vlookup (createTabForSession st sid sw lh w t).1.views sid
      = some (if lh then logBubbles st.logs sid
              else if w then [Bubble.mk "system" welcomeMsg] else []) := by
  have hn : (getPane st sid).isSome = false := by simp [h]
  unfold createTabForSession
  cases sw <;> cases lh <;> cases w <;>
    simp only [hn, Bool.false_eq_true, if_false, if_true, loadHistory_eq, addMessage] <;>
    first
      | (rw [vlookup_foldl_appendAt_some _ _ _ [] (vlookup_vset_self _ _ _)]
         try simp)
      | (rw [vlookup_appendAt_self, vlookup_vset_self]
         try simp)
      | (rw [vlookup_vset_self]
         try simp)

theorem selectTreeNode_panes (st : AppState) (sid : Nat) :
    (selectTreeNode st sid).panes = st.panes := (selectTreeNode_proj st sid).1

theorem selectTreeNode_logs (st : AppState) (sid : Nat) :
    (selectTreeNode st sid).logs = st.logs := (selectTreeNode_proj st sid).2.1

theorem selectTreeNode_views (st : AppState) (sid : Nat) :
    (selectTreeNode st sid).views = st.views := (selectTreeNode_proj st sid).2.2.1

theorem selectTreeNode_treeNodes (st : AppState) (sid : Nat) :
    (selectTreeNode st sid).treeNodes = st.treeNodes := (selectTreeNode_proj st sid).2.2.2.1

theorem selectTreeNode_inputText (st : AppState) (sid : Nat) :
    (selectTreeNode st sid).inputText = st.inputText := (selectTreeNode_proj st sid).2.2.2.2.2.2

theorem removeTreeNode_proj (st : AppState) (sid : Nat) :
    (removeTreeNode st sid).panes = st.panes ∧ (removeTreeNode st sid).logs = st.logs ∧
    (removeTreeNode st sid).views = st.views ∧ (removeTreeNode st sid).active = st.active ∧
    (removeTreeNode st sid).inputText = st.inputText ∧
    (removeTreeNode st sid).syncing = false := by
  unfold removeTreeNode
  cases h : (removeNode st.treeNodes sid).head? <;> simp [withSyncing, h]

theorem closeTabOnly_logs (st : AppState) (sid : Nat) :
    (closeTabOnly st sid).logs = st.logs := by
  unfold closeTabOnly
  by_cases h1 : st.panes.length ≤ 1
  · simp [h1, addMessage]
  · simp only [h1, if_false]
    split
    · rfl
    · simp [withSyncing, selectTreeNode_logs]

theorem closeTabOnly_treeNodes (st : AppState) (sid : Nat) :
    (closeTabOnly st sid).treeNodes = st.treeNodes := by
  unfold closeTabOnly
  by_cases h1 : st.panes.length ≤ 1
  · simp [h1, addMessage]
  · simp only [h1, if_false]
    split
    · rfl
    · simp [withSyncing, selectTreeNode_treeNodes]

theorem closeTabOnly_panes (st : AppState) (sid : Nat) :
    (closeTabOnly st sid).panes
      = if st.panes.length ≤ 1 then st.panes else removePane st.panes sid := by
  unfold closeTabOnly
  by_cases h1 : st.panes.length ≤ 1
  · simp [h1, addMessage]
  · simp only [h1, if_false]
    split
    · rfl
    · simp [withSyncing, selectTreeNode_panes]

theorem closeTabOnly_inputText (st : AppState) (sid : Nat) :
    (closeTabOnly st sid).inputText = st.inputText := by
  unfold closeTabOnly
  by_cases h1 : st.panes.length ≤ 1
  · simp [h1, addMessage]
  · simp only [h1, if_false]
    split
    · rfl
    · simp [withSyncing, selectTreeNode_inputText]

theorem closeTabOnly_syncing (st : AppState) (sid : Nat) (h : st.syncing = false) :
    (closeTabOnly st sid).syncing = false := by
  unfold closeTabOnly
  by_cases h1 : st.panes.length ≤ 1
  · simp [h1, addMessage, h]
  · simp only [h1, if_false]
    split
    · exact h
    · simp [withSyncing]

theorem removePane_sublist (l : List Pane) (sid : Nat) : List.Sublist (removePane l sid) l := by
  induction l with
  | nil => simp [removePane]
  | cons p t ih =>
    by_cases hp : p.id = sid
    · simpa [removePane, hp] using ih.cons p
    · simpa [removePane, hp] using ih.cons₂ p

theorem removePane_nodup (l : List Pane) (sid : Nat) (h : (l.map Pane.id).Nodup) :
    ((removePane l sid).map Pane.id).Nodup :=
  h.sublist ((removePane_sublist l sid).map Pane.id)

theorem removePane_eq_of_not_mem (l : List Pane) (sid : Nat) (h : sid ∉ l.map Pane.id) :
    removePane l sid = l := by
  induction l with
  | nil => rfl
  | cons p t ih =>
    simp only [List.map_cons, List.mem_cons, not_or] at h
    have hp : ¬p.id = sid := fun hc => h.1 hc.symm
    rw [removePane, if_neg hp, ih h.2]

theorem removePane_length (l : List Pane) (sid : Nat) (h : (l.map Pane.id).Nodup) :
    l.length ≤ (removePane l sid).length + 1 := by
  induction l with
  | nil => simp [removePane]
  | cons p t ih =>
    rw [List.map_cons, List.nodup_cons] at h
    by_cases hp : p.id = sid
    · rw [removePane, if_pos hp]
      rw [removePane_eq_of_not_mem t sid (hp ▸ h.1)]
      simp
    · rw [removePane, if_neg hp]
      simpa using ih h.2

/-- The user-visible part of the session-existence invariant: at least one
tab pane is open, and pane widget ids are pairwise distinct (the toolkit
enforces distinctness by construction). -/
def Inv (st : AppState) : Prop :=
  st.panes ≠ [] ∧ (st.panes.map Pane.id).Nodup

theorem inv_of_panes_eq {a b : AppState} (h : a.panes = b.panes) (hb : Inv b) : Inv a := by
  unfold Inv at hb ⊢
  rw [h]
  exact hb

theorem createTab_cases (st : AppState) (sid : Nat) (sw lh w : Bool) (t : Option String) :
    (createTabForSession st sid sw lh w t = (st, false) ∧ (getPane st sid).isSome = true) ∨
    (getPane st sid = none ∧ (createTabForSession st sid sw lh w t).2 = true) := by
  by_cases hg : (getPane st sid).isSome
  · exact Or.inl ⟨createTab_crash st sid sw lh w t hg, hg⟩
  · have hn := Option.not_isSome_iff_eq_none.mp hg
    exact Or.inr ⟨hn, (createTab_ok_proj st sid sw lh w t hn).1⟩

theorem snd_true_eq {p : AppState × Bool} (h : p.2 = true) : p = (p.1, true) := by
  cases p
  simp_all

theorem actionNewTab_crash_eq (st st1 : AppState)
    (hcr : createTabForSession { st with logs := touchFile st.logs (nextSessionId st.logs) }
      (nextSessionId st.logs) true false true none = (st1, false)) :
    actionNewTab st = (st1, false) := by
  simp only [actionNewTab, hcr]

theorem actionNewTab_ok_eq (st st1 : AppState)
    (hcr : createTabForSession { st with logs := touchFile st.logs (nextSessionId st.logs) }
      (nextSessionId st.logs) true false true none = (st1, true)) :
    actionNewTab st
      = withSyncing (fun s => (selectTreeNode s (nextSessionId st.logs), true))
          (addTreeNode st1 (nextSessionId st.logs) (sessionName (nextSessionId st.logs))) := by
  simp only [actionNewTab, hcr]

theorem inv_actionNewTab (st : AppState) (h : Inv st) : Inv (actionNewTab st).1 := by
  rcases createTab_cases { st with logs := touchFile st.logs (nextSessionId st.logs) }
      (nextSessionId st.logs) true false true none with ⟨heq, -⟩ | ⟨hnone, hsnd⟩
  · rw [actionNewTab_crash_eq st _ heq]
    exact h
  · have hcr := snd_true_eq hsnd
    rw [actionNewTab_ok_eq st _ hcr, withSyncing_fst]
    have hp := (createTab_ok_proj { st with logs := touchFile st.logs (nextSessionId st.logs) }
      (nextSessionId st.logs) true false true none hnone).2.1
    have hfresh : nextSessionId st.logs ∉ st.panes.map Pane.id := by
      have := (getPane_eq_none_iff _ _).mp hnone
      simpa using this
    constructor
    · simp [selectTreeNode_panes, addTreeNode, hp]
    · simp only [selectTreeNode_panes, addTreeNode, hp]
      simp only [List.map_append, List.nodup_append]
      refine ⟨h.2, by simp, ?_⟩
      intro a ha hb
      simp at hb
      rw [hb] at ha
      exact hfresh ha

theorem inv_closeTabOnly (st : AppState) (sid : Nat) (h : Inv st) :
    Inv (closeTabOnly st sid) := by
  have hp := closeTabOnly_panes st sid
  by_cases h1 : st.panes.length ≤ 1
  · rw [if_pos h1] at hp
    exact inv_of_panes_eq hp h
  · rw [if_neg h1] at hp
    refine ⟨?_, ?_⟩
    · rw [hp]
      have hlen : 2 ≤ st.panes.length := by omega
      have := removePane_length st.panes sid h.2
      intro hnil
      rw [hnil] at this
      simp at this
      omega
    · rw [hp]
      exact removePane_nodup st.panes sid h.2

theorem finishDelete_panes (st : AppState) (sid : Nat) :
    (finishDelete st sid).1.panes = (closeTabOnly st sid).panes := by
  unfold finishDelete
  simp [(removeTreeNode_proj _ _).1]

theorem inv_finishDelete (st : AppState) (sid : Nat) (h : Inv st) :
    Inv (finishDelete st sid).1 :=
  inv_of_panes_eq (finishDelete_panes st sid) (inv_closeTabOnly st sid h)

theorem permDelete_noCreate_eq (st : AppState) (sid : Nat) (h1 : ¬st.panes.length ≤ 1) :
    permanentlyDeleteChat st sid = finishDelete st sid := by
  unfold permanentlyDeleteChat
  rw [if_neg h1]

theorem permDelete_crash_eq (st : AppState) (sid : Nat) (h1 : st.panes.length ≤ 1)
    (st1 : AppState)
    (hcr : createTabForSession { st with logs := touchFile st.logs (nextSessionId st.logs) }
      (nextSessionId st.logs) true false true none = (st1, false)) :
    permanentlyDeleteChat st sid = (st1, false) := by
  unfold permanentlyDeleteChat
  rw [if_pos h1]
  simp only [hcr]

theorem permDelete_create_eq (st : AppState) (sid : Nat) (h1 : st.panes.length ≤ 1)
    (st1 : AppState)
    (hcr : createTabForSession { st with logs := touchFile st.logs (nextSessionId st.logs) }
      (nextSessionId st.logs) true false true none = (st1, true)) :
    permanentlyDeleteChat st sid
      = finishDelete ((withSyncing (fun s => (selectTreeNode s (nextSessionId st.logs), true))
          (addTreeNode st1 (nextSessionId st.logs) (sessionName (nextSessionId st.logs)))).1) sid := by
  unfold permanentlyDeleteChat
  rw [if_pos h1]
  simp only [hcr]

theorem inv_permanentlyDeleteChat (st : AppState) (sid : Nat) (h : Inv st) :
    Inv (permanentlyDeleteChat st sid).1 := by
  by_cases h1 : st.panes.length ≤ 1
  · rcases createTab_cases { st with logs := touchFile st.logs (nextSessionId st.logs) }
        (nextSessionId st.logs) true false true none with ⟨heq, -⟩ | ⟨hnone, hsnd⟩
    · rw [permDelete_crash_eq st sid h1 _ heq]
      exact h
    · have hcr := snd_true_eq hsnd
      rw [permDelete_create_eq st sid h1 _ hcr]
      have hp := (createTab_ok_proj { st with logs := touchFile st.logs (nextSessionId st.logs) }
        (nextSessionId st.logs) true false true none hnone).2.1
      have hfresh : nextSessionId st.logs ∉ st.panes.map Pane.id := by
        have := (getPane_eq_none_iff _ _).mp hnone
        simpa using this
      apply inv_finishDelete
      rw [withSyncing_fst]
      constructor
      · simp [selectTreeNode_panes, addTreeNode, hp]
      · simp only [selectTreeNode_panes, addTreeNode, hp]
        simp only [List.map_append, List.nodup_append]
        refine ⟨h.2, by simp, ?_⟩
        intro a ha hb
        simp at hb
        rw [hb] at ha
        exact hfresh ha
  · rw [permDelete_noCreate_eq st sid h1]
    exact inv_finishDelete st sid h

theorem inv_applyOp (st : AppState) (op : Op) (h : Inv st) : Inv (applyOp st op) := by
  cases op with
  | newTab => exact inv_actionNewTab st h
  | closeTab sid => exact inv_closeTabOnly st sid h
  | deleteChat sid => exact inv_permanentlyDeleteChat st sid h

theorem inv_applyOps (st : AppState) (ops : List Op) (h : Inv st) : Inv (applyOps st ops) := by
  induction ops generalizing st with
  | nil => exact h
  | cons op rest ih => exact ih (applyOp st op) (inv_applyOp st op h)

theorem mountLoop_cons_ok (s st1 : AppState) (sid : Nat) (rest : List Nat)
    (hcr : createTabForSession s sid false true false none = (st1, true)) :
    mountLoop s (sid :: rest) = mountLoop (addTreeNode st1 sid (sessionName sid)) rest := by
  have hstep : mountLoop s (sid :: rest)
      = match createTabForSession s sid false true false none with
        | (st1, false) => (st1, false)
        | (st1, true) => mountLoop (addTreeNode st1 sid (sessionName sid)) rest := rfl
  rw [hstep, hcr]

theorem mountLoop_spec (l : List Nat) (s : AppState) (hnd : l.Nodup)
    (hfresh : ∀ sid ∈ l, sid ∉ s.panes.map Pane.id) :
    (mountLoop s l).2 = true ∧
    (mountLoop s l).1.panes.map Pane.id = s.panes.map Pane.id ++ l := by
  induction l generalizing s with
  | nil => simp [mountLoop]
  | cons sid rest ih =>
    have hfs : getPane s sid = none :=
      (getPane_eq_none_iff s sid).mpr (hfresh sid (by simp))
    obtain ⟨h2, hp, -, -, -, -, -⟩ := createTab_ok_proj s sid false true false none hfs
    rw [List.nodup_cons] at hnd
    have hcr := snd_true_eq h2
    rw [mountLoop_cons_ok s _ sid rest hcr]
    have hrest : ∀ sid2 ∈ rest,
        sid2 ∉ (addTreeNode (createTabForSession s sid false true false none).1 sid
          (sessionName sid)).panes.map Pane.id := by
      intro sid2 hmem
      simp only [addTreeNode, hp]
      simp only [List.map_append, List.mem_append]
      rintro (hin | hin)
      · exact hfresh sid2 (by simp [hmem]) hin
      · simp at hin
        rw [hin] at hmem
        exact hnd.1 hmem
    obtain ⟨hok, hids⟩ := ih _ hnd.2 hrest
    refine ⟨hok, ?_⟩
    rw [hids]
    simp [addTreeNode, hp, List.append_assoc]

theorem listSessionIds_nodup (disk : List (Nat × List LogEntry))
    (h : (disk.map Prod.fst).Nodup) : (listSessionIds disk).Nodup := by
  unfold listSessionIds
  exact ((List.perm_insertionSort _ _).symm).nodup (h.filter _)

theorem onMount_empty_eq (disk : List (Nat × List LogEntry))
    (he : (listSessionIds disk).isEmpty = true) (st1 : AppState)
    (hcr : createTabForSession { panes := [], active := none, views := [], treeNodes := [], treeSelected := none, lastTreeSid := none, syncing := true, inputText := "", logs := touchFile disk (nextSessionId disk) } (nextSessionId disk) true false true none = (st1, true)) :
    (onMount disk).1
      = { selectTreeNode (addTreeNode st1 (nextSessionId disk) (sessionName (nextSessionId disk)))
          (nextSessionId disk) with syncing := false } := by
  simp only [onMount, withSyncing]
  simp only [he, if_true, eq_self_iff_true]
  simp only [hcr]

theorem onMount_nonempty_eq (disk : List (Nat × List LogEntry))
    (he : (listSessionIds disk).isEmpty = false) (s1 : AppState)
    (hml : mountLoop { panes := [], active := none, views := [], treeNodes := [], treeSelected := none, lastTreeSid := none, syncing := true, inputText := "", logs := disk } (listSessionIds disk) = (s1, true)) :
    (onMount disk).1
      = { selectTreeNode { s1 with active := (listSessionIds disk).getLast? }
          ((listSessionIds disk).getLastD 0) with syncing := false } := by
  simp only [onMount, withSyncing]
  simp only [he, Bool.false_eq_true, if_false]
  simp only [hml]

theorem onMount_inv (disk : List (Nat × List LogEntry))
    (h : (disk.map Prod.fst).Nodup) : Inv (onMount disk).1 := by
  by_cases he : (listSessionIds disk).isEmpty
  · have hfs : getPane { panes := [], active := none, views := [], treeNodes := [], treeSelected := none, lastTreeSid := none, syncing := true, inputText := "", logs := touchFile disk (nextSessionId disk) } (nextSessionId disk) = none := rfl
    obtain ⟨h2, hp, -, -, -, -, -⟩ := createTab_ok_proj _ _ true false true none hfs
    have hcr := snd_true_eq h2
    rw [onMount_empty_eq disk he _ hcr]
    constructor
    · simp [selectTreeNode_panes, addTreeNode, hp]
    · simp [selectTreeNode_panes, addTreeNode, hp]
  · have he2 : (listSessionIds disk).isEmpty = false := by
      simpa using he
    obtain ⟨hok, hids⟩ := mountLoop_spec (listSessionIds disk)
      { panes := [], active := none, views := [], treeNodes := [], treeSelected := none, lastTreeSid := none, syncing := true, inputText := "", logs := disk }
      (listSessionIds_nodup disk h) (by simp)
    have hml := snd_true_eq hok
    rw [onMount_nonempty_eq disk he2 _ hml]
    have hne : listSessionIds disk ≠ [] := by
      simpa [List.isEmpty_iff] using he
    simp only [List.map_nil, List.nil_append] at hids
    constructor
    · simp only [selectTreeNode_panes]
      intro hnil
      apply hne
      rw [← hids]
      show (({ (mountLoop _ (listSessionIds disk)).1 with active := (listSessionIds disk).getLast? } : AppState).panes).map Pane.id = []
      rw [hnil]
      rfl
    · simp only [selectTreeNode_panes]
      have hpan : ({ (mountLoop { panes := [], active := none, views := [], treeNodes := [], treeSelected := none, lastTreeSid := none, syncing := true, inputText := "", logs := disk } (listSessionIds disk)).1 with active := (listSessionIds disk).getLast? } : AppState).panes.map Pane.id = listSessionIds disk := hids
      rw [hpan]
      exact listSessionIds_nodup disk h

theorem finishDelete_syncing (st : AppState) (sid : Nat) :
    (finishDelete st sid).1.syncing = false := by
  unfold finishDelete
  exact (removeTreeNode_proj _ _).2.2.2.2.2

/-- An example state with two open chats (used to instantiate theorems). -/
def exStateA : AppState :=
  { panes := [Pane.mk 1 "chat_001", Pane.mk 2 "chat_002"], active := some 1,
    views := [(1, []), (2, [])],
    treeNodes := [TNode.mk 1 "chat_001", TNode.mk 2 "chat_002"],
    treeSelected := some 1, lastTreeSid := some 1, syncing := false,
    inputText := "", logs := [(1, []), (2, [])] }

/-- The example state while a programmatic selection is in progress. -/
def exStateSync : AppState := { exStateA with syncing := true }

/-- C1: for every sequence of user operations (`action_new_tab`,
`_close_tab_only`, `_permanently_delete_chat`) starting from an initialized
application (`on_mount` on an arbitrary history directory), at least one
tab pane exists after each operation; `_close_tab_only` refuses to close
when only one tab is open (panes, logs and tree untouched), and
`_permanently_delete_chat` on the only session leaves at least one pane
because it creates a fresh session first. -/
theorem c1_session_always_exists (disk : List (Nat × List LogEntry))
    (hdisk : (disk.map Prod.fst).Nodup) (ops : List Op) :
    (applyOps (onMount disk).1 ops).panes ≠ [] ∧
    (∀ (st : AppState) (sid : Nat), st.panes.length = 1 →
      (closeTabOnly st sid).panes = st.panes ∧ (closeTabOnly st sid).logs = st.logs ∧
      (closeTabOnly st sid).treeNodes = st.treeNodes) ∧
    (∀ (st : AppState) (sid : Nat), st.panes.length = 1 →
      (permanentlyDeleteChat st sid).1.panes ≠ []) := by
  refine ⟨(inv_applyOps _ ops (onMount_inv disk hdisk)).1, ?_, ?_⟩
  · intro st sid h1
    have hle : st.panes.length ≤ 1 := by omega
    refine ⟨?_, closeTabOnly_logs st sid, closeTabOnly_treeNodes st sid⟩
    rw [closeTabOnly_panes, if_pos hle]
  · intro st sid h1
    have hinv : Inv st := by
      obtain ⟨p, hp⟩ := List.length_eq_one.mp h1
      unfold Inv
      rw [hp]
      exact ⟨by simp, by simp⟩
    exact (inv_permanentlyDeleteChat st sid hinv).1

theorem c1_witness :
    (applyOps (onMount []).1 [Op.newTab, Op.deleteChat 1, Op.closeTab 2]).panes ≠ [] :=
  (c1_session_always_exists [] (by simp) [Op.newTab, Op.deleteChat 1, Op.closeTab 2]).1

/-- C5: the selection synchronizer behaves as a two-state machine: the
tree-selection handler returns immediately with the state unchanged
whenever `_syncing_ui` is set; the `_syncing_ui = True / try/finally`
bracket runs its body with the flag set and restores the flag to `False`
on completion and on exception alike; and each operation that performs a
programmatic selection ends with the flag cleared. -/
theorem c5_two_state_sync (st : AppState) (ev : TreeEvent)
    (f : AppState → AppState × Bool) (sid : Nat) :
    (st.syncing = true → onTreeNodeSelected st ev = (st, true)) ∧
    ((withSyncing f st).1.syncing = false) ∧
    ((withSyncing f st).2 = (f { st with syncing := true }).2) ∧
    (st.syncing = false →
      (actionNewTab st).1.syncing = false ∧ (closeTabOnly st sid).syncing = false ∧
      (permanentlyDeleteChat st sid).1.syncing = false) := by
  refine ⟨?_, rfl, rfl, ?_⟩
  · intro h
    unfold onTreeNodeSelected
    rw [h]
    simp
  · intro h
    refine ⟨?_, closeTabOnly_syncing st sid h, ?_⟩
    · rcases createTab_cases { st with logs := touchFile st.logs (nextSessionId st.logs) }
          (nextSessionId st.logs) true false true none with ⟨heq, -⟩ | ⟨hnone, hsnd⟩
      · rw [actionNewTab_crash_eq st _ heq]
        exact h
      · rw [actionNewTab_ok_eq st _ (snd_true_eq hsnd)]
        rfl
    · by_cases h1 : st.panes.length ≤ 1
      · rcases createTab_cases { st with logs := touchFile st.logs (nextSessionId st.logs) }
            (nextSessionId st.logs) true false true none with ⟨heq, -⟩ | ⟨hnone, hsnd⟩
        · rw [permDelete_crash_eq st sid h1 _ heq]
          exact h
        · rw [permDelete_create_eq st sid h1 _ (snd_true_eq hsnd)]
          exact finishDelete_syncing _ sid
      · rw [permDelete_noCreate_eq st sid h1]
        exact finishDelete_syncing st sid

theorem c5_witness :
    onTreeNodeSelected exStateSync (TreeEvent.mk false (some 2)) = (exStateSync, true) ∧
    (actionNewTab exStateA).1.syncing = false :=
  ⟨(c5_two_state_sync exStateSync (TreeEvent.mk false (some 2)) (fun s => (s, true)) 1).1 rfl,
   ((c5_two_state_sync exStateA (TreeEvent.mk false (some 2)) (fun s => (s, true)) 1).2.2.2 rfl).1⟩

/-- A state with two open chats where session 1 has persisted history and
the input field holds the `/close` command. -/
def c2State : AppState :=
  { panes := [Pane.mk 1 "chat_001", Pane.mk 2 "chat_002"], active := some 1,
    views := [(1, []), (2, [])],
    treeNodes := [TNode.mk 1 "chat_001", TNode.mk 2 "chat_002"],
    treeSelected := some 1, lastTreeSid := some 1, syncing := false,
    inputText := "/close",
    logs := [(1, [LogEntry.ok (LogRecord.mk "t0" "user" "hi")]), (2, [])] }

/-- C2 counterexample: the close-chat operation (`/close`, which invokes
`action_close_tab`, as does the Ctrl+W binding) does not leave the durable
log and navigation entry untouched: with two chats open and session 1
active, sending `/close` deletes session 1 log file and its tree node
(`action_close_tab` calls `_permanently_delete_chat`). -/
theorem c2_counterexample :
    vlookup c2State.logs 1 = some [LogEntry.ok (LogRecord.mk "t0" "user" "hi")] ∧
    c2State.treeNodes = [TNode.mk 1 "chat_001", TNode.mk 2 "chat_002"] ∧
    vlookup ((modelResponse c2State "t1" (Except.ok "resp")).1).logs 1 = none ∧
    ((modelResponse c2State "t1" (Except.ok "resp")).1).treeNodes = [TNode.mk 2 "chat_002"] := by
  refine ⟨rfl, rfl, ?_, ?_⟩ <;> decide

/-- A state in which session 1 is closed (no pane, no view) but keeps its
log file and navigation entry, while session 2 is open and active. -/
def c2Closed : AppState :=
  { panes := [Pane.mk 2 "chat_002"], active := some 2, views := [(2, [])],
    treeNodes := [TNode.mk 1 "chat_001", TNode.mk 2 "chat_002"],
    treeSelected := some 2, lastTreeSid := some 2, syncing := false,
    inputText := "",
    logs := [(1, [LogEntry.ok (LogRecord.mk "t0" "user" "hi"),
                  LogEntry.ok (LogRecord.mk "t0" "assistant" "hello")]), (2, [])] }

theorem paneFind_removePane (l : List Pane) (sid : Nat) :
    paneFind (removePane l sid) sid = none := by
  induction l with
  | nil => rfl
  | cons p t ih =>
    by_cases hp : p.id = sid
    · rw [removePane, if_pos hp]
      exact ih
    · rw [removePane, if_neg hp]
      unfold paneFind at ih ⊢
      rw [List.find?_cons_of_neg _ (by simp [hp])]
      exact ih

theorem closeTabOnly_views_of_many (st : AppState) (sid : Nat) (h1 : ¬st.panes.length ≤ 1) :
    (closeTabOnly st sid).views = vremove st.views sid := by
  unfold closeTabOnly
  simp only [h1, if_false]
  split
  · rfl
  · simp [withSyncing, selectTreeNode_views]

/-- C2 amended: the close-chat key binding and the `/close` command
permanently delete the session (see the counterexample); it is only the
internal helper `_close_tab_only`, used as a step of permanent deletion,
that closes a tab: on every state it leaves the session log and the
navigation-tree entry unchanged, and when more than one tab is open it
does remove the session pane and its view; and selecting a session
without a pane in the navigation tree recreates the pane and reloads its
history from the log into a fresh view. -/
theorem c2_close_preserves_log_and_tree (st : AppState) (sid : Nat) :
    ((closeTabOnly st sid).logs = st.logs ∧ (closeTabOnly st sid).treeNodes = st.treeNodes) ∧
    (¬st.panes.length ≤ 1 →
      getPane (closeTabOnly st sid) sid = none ∧
      vlookup (closeTabOnly st sid).views sid = none) ∧
    (st.syncing = false → st.active ≠ some sid → getPane st sid = none →
      (onTreeNodeSelected st (TreeEvent.mk false (some sid))).2 = true ∧
      getPane (onTreeNodeSelected st (TreeEvent.mk false (some sid))).1 sid
        = some (Pane.mk sid (sessionName sid)) ∧
      vlookup (onTreeNodeSelected st (TreeEvent.mk false (some sid))).1.views sid
        = some (logBubbles st.logs sid)) := by
  refine ⟨⟨closeTabOnly_logs st sid, closeTabOnly_treeNodes st sid⟩, ?_, ?_⟩
  · intro h1
    constructor
    · show paneFind (closeTabOnly st sid).panes sid = none
      rw [closeTabOnly_panes, if_neg h1]
      exact paneFind_removePane st.panes sid
    · rw [closeTabOnly_views_of_many st sid h1]
      exact vlookup_vremove_self st.views sid
  · intro hsync hactive hnone
    have hnone' : getPane { st with lastTreeSid := some sid } sid = none := hnone
    have e1 : onTreeNodeSelected st (TreeEvent.mk false (some sid))
        = createTabForSession { st with lastTreeSid := some sid } sid true true false none := by
      unfold onTreeNodeSelected
      rw [if_neg (show ¬(((TreeEvent.mk false (some sid)).isRoot || st.syncing) = true) from by
        simp [hsync])]
      show (if ({ st with lastTreeSid := some sid } : AppState).active = some sid
          then (({ st with lastTreeSid := some sid } : AppState), true)
          else if (getPane ({ st with lastTreeSid := some sid } : AppState) sid).isSome = true
            then (({ st with lastTreeSid := some sid, active := some sid } : AppState), true)
            else createTabForSession { st with lastTreeSid := some sid } sid true true false none)
        = createTabForSession { st with lastTreeSid := some sid } sid true true false none
      rw [if_neg (show ¬(({ st with lastTreeSid := some sid } : AppState).active = some sid)
        from hactive)]
      rw [if_neg (show ¬((getPane ({ st with lastTreeSid := some sid } : AppState) sid).isSome = true)
        from by rw [hnone']
                simp)]
    obtain ⟨h2, hp, -, -, -, -, -⟩ :=
      createTab_ok_proj { st with lastTreeSid := some sid } sid true true false none hnone'
    have hv := createTab_ok_views { st with lastTreeSid := some sid } sid true true false none hnone'
    refine ⟨?_, ?_, ?_⟩
    · rw [e1]
      exact h2
    · rw [e1]
      show paneFind (createTabForSession { st with lastTreeSid := some sid }
        sid true true false none).1.panes sid = some (Pane.mk sid (sessionName sid))
      rw [hp]
      exact paneFind_append_self st.panes (Pane.mk sid (sessionName sid)) sid rfl hnone
    · rw [e1]
      simpa using hv

theorem c2_witness :
    ((closeTabOnly exStateA 1).logs = exStateA.logs ∧
      (closeTabOnly exStateA 1).treeNodes = exStateA.treeNodes) ∧
    getPane (closeTabOnly exStateA 1) 1 = none ∧
    vlookup (closeTabOnly exStateA 1).views 1 = none ∧
    getPane (onTreeNodeSelected c2Closed (TreeEvent.mk false (some 1))).1 1
      = some (Pane.mk 1 (sessionName 1)) ∧
    vlookup (onTreeNodeSelected c2Closed (TreeEvent.mk false (some 1))).1.views 1
      = some (logBubbles c2Closed.logs 1) := by
  obtain ⟨pres, rem, -⟩ := c2_close_preserves_log_and_tree exStateA 1
  obtain ⟨grem, vrem⟩ := rem (by decide)
  obtain ⟨-, -, reop⟩ := c2_close_preserves_log_and_tree c2Closed 1
  obtain ⟨-, d, e⟩ := reop rfl (by decide) rfl
  exact ⟨pres, grem, vrem, d, e⟩

theorem sorted_le_getLast :
    ∀ l : List Nat, l.Sorted (· ≤ ·) → ∀ x ∈ l, ∃ y, l.getLast? = some y ∧ x ≤ y := by
  intro l
  induction l with
  | nil =>
    intro _ x hx
    cases hx
  | cons a t ih =>
    intro h x hx
    cases t with
    | nil =>
      simp only [List.mem_singleton] at hx
      subst hx
      exact ⟨x, by simp, le_refl x⟩
    | cons b t2 =>
      rw [List.getLast?_cons_cons]
      have hs := List.sorted_cons.mp h
      rcases List.mem_cons.mp hx with rfl | hx2
      · obtain ⟨y, hy, hby⟩ := ih hs.2 b (by simp)
        exact ⟨y, hy, le_trans (hs.1 b (by simp)) hby⟩
      · exact ih hs.2 x hx2

/-- C4 counterexample: session ids are reused after deletion within one
run.  Starting from an empty history directory, `on_mount` creates session
1 and the next mint is 2; `action_new_tab` then creates session 2 (next
mint becomes 3); after permanently deleting session 2, `next_session_id`
returns 2 again — the same id as the one minted before, because ids are
recomputed as max(existing files) + 1, not from a monotone counter. -/
theorem c4_counterexample :
    nextSessionId ((onMount []).1).logs = 2 ∧
    nextSessionId (((actionNewTab (onMount []).1).1).logs) = 3 ∧
    nextSessionId (((permanentlyDeleteChat ((actionNewTab (onMount []).1).1) 2).1).logs) = 2 := by
  refine ⟨?_, ?_, ?_⟩ <;> decide

/-- C4 amended: a newly minted session id is `max(listed existing) + 1`
and is therefore strictly greater than — in particular different from —
every session id currently listed on disk; ids of sessions deleted
earlier in the run can however be minted again. -/
theorem c4_next_id_fresh (logs : List (Nat × List LogEntry)) (sid : Nat)
    (h : sid ∈ listSessionIds logs) : sid < nextSessionId logs := by
  have hs : (listSessionIds logs).Sorted (· ≤ ·) := by
    unfold listSessionIds
    exact List.sorted_insertionSort _ _
  obtain ⟨y, hy, hxy⟩ := sorted_le_getLast _ hs sid h
  unfold nextSessionId
  rw [hy]
  show sid < y + 1
  omega

theorem c4_witness : 1 < nextSessionId [(1, [])] :=
  c4_next_id_fresh [(1, [])] 1 (by decide)

/-- A single-chat state whose log holds a well-formed record, then a
malformed line, then another well-formed record. -/
def c6State : AppState :=
  { panes := [Pane.mk 1 "chat_001"], active := some 1, views := [(1, [])],
    treeNodes := [TNode.mk 1 "chat_001"], treeSelected := some 1,
    lastTreeSid := some 1, syncing := false, inputText := "",
    logs := [(1, [LogEntry.ok (LogRecord.mk "t0" "user" "first"),
                  LogEntry.malformed "oops",
                  LogEntry.ok (LogRecord.mk "t0" "assistant" "second")])] }

/-- C6 counterexample: a malformed line does not merely get skipped —
`load_history` wraps the whole loop in one `try/except`, so the record
after the corrupt line is never displayed; only the records before it and
the warning bubble appear. -/
theorem c6_counterexample :
    vlookup (loadHistory c6State 1).views 1
      = some [Bubble.mk "user" "first", Bubble.mk "system" (loadErrMsg 1)] ∧
    Bubble.mk "assistant" "second" ∉ (vlookup (loadHistory c6State 1).views 1).getD [] := by
  constructor <;> decide

/-- Entries on which `json.loads` does not raise. -/
def isCleanEntry : LogEntry → Bool
  | LogEntry.malformed _ => false
  | _ => true

/-- The bubbles of the well-formed records of a log segment. -/
def cleanBubbles : List LogEntry → List Bubble
  | [] => []
  | LogEntry.ok r :: rest => Bubble.mk r.role r.content :: cleanBubbles rest
  | _ :: rest => cleanBubbles rest

theorem readLogBubbles_clean (sid : Nat) (l : List LogEntry)
    (h : ∀ e ∈ l, isCleanEntry e = true) : readLogBubbles sid l = cleanBubbles l := by
  induction l with
  | nil => rfl
  | cons e rest ih =>
    cases e with
    | ok r => simp [readLogBubbles, cleanBubbles, ih fun x hx => h x (by simp [hx])]
    | malformed raw =>
      have := h (LogEntry.malformed raw) (by simp)
      simp [isCleanEntry] at this
    | blank => simp [readLogBubbles, cleanBubbles, ih fun x hx => h x (by simp [hx])]

theorem readLogBubbles_abort (sid : Nat) (pre : List LogEntry) (raw : String)
    (suffix : List LogEntry) (h : ∀ e ∈ pre, isCleanEntry e = true) :
    readLogBubbles sid (pre ++ LogEntry.malformed raw :: suffix)
      = cleanBubbles pre ++ [Bubble.mk "system" (loadErrMsg sid)] := by
  induction pre with
  | nil => rfl
  | cons e rest ih =>
    cases e with
    | ok r =>
      simp only [List.cons_append, readLogBubbles, cleanBubbles, List.append_eq]
      rw [ih fun x hx => h x (by simp [hx])]
    | malformed raw2 =>
      have := h (LogEntry.malformed raw2) (by simp)
      simp [isCleanEntry] at this
    | blank =>
      simp only [List.cons_append, readLogBubbles, cleanBubbles]
      exact ih fun x hx => h x (by simp [hx])

/-- C6 amended: on a log containing a malformed line, `load_history`
displays every well-formed record preceding the first malformed line and
then a single recoverable warning bubble; the records after the malformed
line are not displayed (the surrounding `try` aborts the loop).  On a log
with no malformed line, every well-formed record is displayed. -/
theorem c6_load_aborts_at_malformed (st : AppState) (sid : Nat) (pre : List LogEntry)
    (raw : String) (suffix : List LogEntry)
    (hlog : vlookup st.logs sid = some (pre ++ LogEntry.malformed raw :: suffix))
    (hclean : ∀ e ∈ pre, isCleanEntry e = true) :
    vlookup (loadHistory st sid).views sid
      = some ((vlookup st.views sid).getD []
          ++ (cleanBubbles pre ++ [Bubble.mk "system" (loadErrMsg sid)])) ∧
    (∀ (st2 : AppState) (entries : List LogEntry),
      vlookup st2.logs sid = some entries → (∀ e ∈ entries, isCleanEntry e = true) →
      (vlookup (loadHistory st2 sid).views sid).getD []
        = (vlookup st2.views sid).getD [] ++ cleanBubbles entries) := by
  constructor
  · rw [loadHistory_eq]
    simp only
    have hb : logBubbles st.logs sid
        = cleanBubbles pre ++ [Bubble.mk "system" (loadErrMsg sid)] := by
      unfold logBubbles
      rw [hlog]
      exact readLogBubbles_abort sid pre raw suffix hclean
    rw [hb]
    cases hcb : cleanBubbles pre ++ [Bubble.mk "system" (loadErrMsg sid)] with
    | nil => simp at hcb
    | cons b bs =>
      rw [vlookup_foldl_appendAt_cons]
  · intro st2 entries hlog2 hclean2
    rw [loadHistory_eq]
    simp only
    have hb : logBubbles st2.logs sid = cleanBubbles entries := by
      unfold logBubbles
      rw [hlog2]
      exact readLogBubbles_clean sid entries hclean2
    rw [hb]
    cases hcb : cleanBubbles entries with
    | nil => simp
    | cons b bs =>
      rw [vlookup_foldl_appendAt_cons]
      rfl

theorem c6_witness :
    vlookup (loadHistory c6State 1).views 1
      = some ((vlookup c6State.views 1).getD []
          ++ (cleanBubbles [LogEntry.ok (LogRecord.mk "t0" "user" "first")]
              ++ [Bubble.mk "system" (loadErrMsg 1)])) :=
  (c6_load_aborts_at_malformed c6State 1 [LogEntry.ok (LogRecord.mk "t0" "user" "first")]
    "oops" [LogEntry.ok (LogRecord.mk "t0" "assistant" "second")] rfl (by decide)).1

theorem sendPhase_none (st : AppState) (now : String) (hact : st.active = none) :
    sendPhase st now = ((st, true), none) := by
  simp only [sendPhase, hact]

theorem sendPhase_blank (st : AppState) (now : String) (sid : Nat)
    (hact : st.active = some sid) (hne : pyStrip st.inputText = "") :
    sendPhase st now = ((st, true), none) := by
  simp only [sendPhase, hact]
  rw [if_pos hne]

theorem sendPhase_rename (st : AppState) (now : String) (sid : Nat)
    (hact : st.active = some sid) (hne : pyStrip st.inputText ≠ "")
    (hrn : strStarts (pyStrip st.inputText) renameMarker = true) :
    sendPhase st now = ((renameCmd st sid (pyStrip st.inputText), true), none) := by
  simp only [sendPhase, hact]
  rw [if_neg hne, if_pos hrn]

theorem sendPhase_new (st : AppState) (now : String) (sid : Nat)
    (hact : st.active = some sid) (hne : pyStrip st.inputText ≠ "")
    (hrn : strStarts (pyStrip st.inputText) renameMarker = false)
    (h1 : pyStrip st.inputText = "/new") :
    sendPhase st now = (actionNewTab { st with inputText := "" }, none) := by
  simp only [sendPhase, hact]
  rw [if_neg hne, if_neg (by rw [hrn]; simp), if_pos h1]

theorem sendPhase_close (st : AppState) (now : String) (sid : Nat)
    (hact : st.active = some sid) (hne : pyStrip st.inputText ≠ "")
    (hrn : strStarts (pyStrip st.inputText) renameMarker = false)
    (h1 : pyStrip st.inputText ≠ "/new") (h2 : pyStrip st.inputText = "/close") :
    sendPhase st now = (actionCloseTab { st with inputText := "" }, none) := by
  simp only [sendPhase, hact]
  rw [if_neg hne, if_neg (by rw [hrn]; simp), if_neg h1, if_pos h2]

theorem sendPhase_delete (st : AppState) (now : String) (sid : Nat)
    (hact : st.active = some sid) (hne : pyStrip st.inputText ≠ "")
    (hrn : strStarts (pyStrip st.inputText) renameMarker = false)
    (h1 : pyStrip st.inputText ≠ "/new") (h2 : pyStrip st.inputText ≠ "/close")
    (h3 : pyStrip st.inputText = "/delete") :
    sendPhase st now = (permanentlyDeleteChat { st with inputText := "" } sid, none) := by
  simp only [sendPhase, hact]
  rw [if_neg hne, if_neg (by rw [hrn]; simp), if_neg h1, if_neg h2, if_pos h3]

theorem sendPhase_ordinary (st : AppState) (now : String) (sid : Nat)
    (hact : st.active = some sid) (hne : pyStrip st.inputText ≠ "")
    (hrn : strStarts (pyStrip st.inputText) renameMarker = false)
    (h1 : pyStrip st.inputText ≠ "/new") (h2 : pyStrip st.inputText ≠ "/close")
    (h3 : pyStrip st.inputText ≠ "/delete") :
    sendPhase st now
      = ((addMessage { saveMessage (addMessage st sid "user" (pyStrip st.inputText)) sid now
            "user" (pyStrip st.inputText) with inputText := "" } sid "status" thinkingMsg,
          true), some sid) := by
  simp only [sendPhase, hact]
  rw [if_neg hne, if_neg (by rw [hrn]; simp), if_neg h1, if_neg h2, if_neg h3]

theorem modelResponse_of_none (st s1 : AppState) (b : Bool) (now : String)
    (outcome : Except String String) (h : sendPhase st now = ((s1, b), none)) :
    modelResponse st now outcome = (s1, b) := by
  simp only [modelResponse, h]

theorem modelResponse_of_dispatch (st s1 : AppState) (b : Bool) (sid : Nat) (now : String)
    (outcome : Except String String) (h : sendPhase st now = ((s1, b), some sid)) :
    modelResponse st now outcome = (deliverPhase s1 sid now outcome, true) := by
  simp only [modelResponse, h]

theorem renameCmd_logs (st : AppState) (sid : Nat) (p : String) :
    (renameCmd st sid p).logs = st.logs := by
  simp only [renameCmd]
  split
  · rfl
  · split
    · rfl
    · split
      · rfl
      · rfl

theorem actionNewTab_logs (st : AppState) :
    (actionNewTab st).1.logs = touchFile st.logs (nextSessionId st.logs) := by
  rcases createTab_cases { st with logs := touchFile st.logs (nextSessionId st.logs) }
      (nextSessionId st.logs) true false true none with ⟨heq, -⟩ | ⟨hnone, hsnd⟩
  · rw [actionNewTab_crash_eq st _ heq]
  · rw [actionNewTab_ok_eq st _ (snd_true_eq hsnd), withSyncing_fst]
    have hl := (createTab_ok_proj { st with logs := touchFile st.logs (nextSessionId st.logs) }
      (nextSessionId st.logs) true false true none hnone).2.2.1
    simp only [selectTreeNode_logs, addTreeNode]
    simpa using hl

theorem finishDelete_logs (st : AppState) (sid : Nat) :
    (finishDelete st sid).1.logs = vremove st.logs sid := by
  unfold finishDelete
  rw [(removeTreeNode_proj _ _).2.1]
  simp only
  rw [closeTabOnly_logs]

theorem okStatusCount_append (l1 l2 : List LogEntry) :
    okStatusCount (l1 ++ l2) = okStatusCount l1 + okStatusCount l2 := by
  induction l1 with
  | nil => simp [okStatusCount]
  | cons e rest ih =>
    cases e <;> simp [okStatusCount, ih, Nat.add_assoc]

theorem logStatus_eq_count (logs : List (Nat × List LogEntry)) (k : Nat) :
    logStatus logs k = okStatusCount ((vlookup logs k).getD []) := by
  unfold logStatus
  cases vlookup logs k <;> rfl

theorem logStatus_touchFile (logs : List (Nat × List LogEntry)) (sid k : Nat) :
    logStatus (touchFile logs sid) k = logStatus logs k := by
  rw [logStatus_eq_count, logStatus_eq_count]
  by_cases h : k = sid
  · subst h
    rw [vlookup_touchFile_self]
    simp
  · rw [vlookup_touchFile_ne _ _ _ h]

theorem logStatus_vremove_le (logs : List (Nat × List LogEntry)) (sid k : Nat) :
    logStatus (vremove logs sid) k ≤ logStatus logs k := by
  rw [logStatus_eq_count, logStatus_eq_count]
  by_cases h : k = sid
  · subst h
    rw [vlookup_vremove_self]
    simp [okStatusCount]
  · rw [vlookup_vremove_ne _ _ _ h]

theorem logStatus_appendAt (logs : List (Nat × List LogEntry)) (sid k : Nat)
    (ts role c : String) (h : role ≠ "status") :
    logStatus (appendAt logs sid (LogEntry.ok (LogRecord.mk ts role c))) k
      = logStatus logs k := by
  rw [logStatus_eq_count, logStatus_eq_count]
  by_cases hk : k = sid
  · subst hk
    rw [vlookup_appendAt_self]
    simp [okStatusCount_append, okStatusCount, h]
  · rw [vlookup_appendAt_ne _ _ _ _ hk]

theorem logStatus_permDelete (st : AppState) (sid k : Nat) :
    logStatus ((permanentlyDeleteChat st sid).1).logs k ≤ logStatus st.logs k := by
  by_cases h1 : st.panes.length ≤ 1
  · rcases createTab_cases { st with logs := touchFile st.logs (nextSessionId st.logs) }
        (nextSessionId st.logs) true false true none with ⟨heq, -⟩ | ⟨hnone, hsnd⟩
    · rw [permDelete_crash_eq st sid h1 _ heq]
      show logStatus (touchFile st.logs (nextSessionId st.logs)) k ≤ logStatus st.logs k
      rw [logStatus_touchFile]
    · rw [permDelete_create_eq st sid h1 _ (snd_true_eq hsnd)]
      rw [finishDelete_logs, withSyncing_fst]
      have hl := (createTab_ok_proj { st with logs := touchFile st.logs (nextSessionId st.logs) }
        (nextSessionId st.logs) true false true none hnone).2.2.1
      have hx : ({ selectTreeNode { addTreeNode (createTabForSession { st with logs := touchFile st.logs (nextSessionId st.logs) } (nextSessionId st.logs) true false true none).1 (nextSessionId st.logs) (sessionName (nextSessionId st.logs)) with syncing := true } (nextSessionId st.logs) with syncing := false } : AppState).logs = touchFile st.logs (nextSessionId st.logs) := by
        simp only [selectTreeNode_logs, addTreeNode]
        simpa using hl
      rw [hx]
      exact le_trans (logStatus_vremove_le _ sid k) (le_of_eq (logStatus_touchFile _ _ _))
  · rw [permDelete_noCreate_eq st sid h1, finishDelete_logs]
    exact logStatus_vremove_le st.logs sid k

theorem modelResponse_of_none_pair (st : AppState) (r : AppState × Bool) (now : String)
    (outcome : Except String String) (h : sendPhase st now = (r, none)) :
    modelResponse st now outcome = r := by
  obtain ⟨s1, b⟩ := r
  simp only [modelResponse, h]

theorem actionCloseTab_eq (st : AppState) (sid : Nat) (h : st.active = some sid) :
    actionCloseTab st = permanentlyDeleteChat st sid := by
  simp only [actionCloseTab, h]

theorem deliverPhase_ok (st : AppState) (sid : Nat) (now t : String) :
    deliverPhase st sid now (Except.ok t)
      = saveMessage (addMessage (removeStatusWidget st sid) sid "assistant" t)
          sid now "assistant" t := rfl

theorem deliverPhase_error (st : AppState) (sid : Nat) (now e : String) :
    deliverPhase st sid now (Except.error e)
      = saveMessage (addMessage (removeStatusWidget st sid) sid "assistant"
            ("**Error:** `" ++ e ++ "`"))
          sid now "assistant" ("**Error:** `" ++ e ++ "`") := rfl

theorem removeLastStatus_append (l : List Bubble) (c : String) :
    removeLastStatus (l ++ [Bubble.mk "status" c]) = l := by
  have h1 : (l ++ [Bubble.mk "status" c]).reverse = Bubble.mk "status" c :: l.reverse := by
    simp
  unfold removeLastStatus
  rw [h1]
  have h2 : removeFirstStatus (Bubble.mk "status" c :: l.reverse) = l.reverse := by
    simp [removeFirstStatus]
  rw [h2, List.reverse_reverse]

theorem logStatus_modelResponse (st2 : AppState) (now2 : String)
    (outcome : Except String String) (k : Nat) :
    logStatus ((modelResponse st2 now2 outcome).1).logs k ≤ logStatus st2.logs k := by
  cases hact2 : st2.active with
  | none =>
    rw [modelResponse_of_none_pair st2 _ now2 outcome (sendPhase_none st2 now2 hact2)]
  | some sid2 =>
    by_cases hb : pyStrip st2.inputText = ""
    · rw [modelResponse_of_none_pair st2 _ now2 outcome (sendPhase_blank st2 now2 sid2 hact2 hb)]
    · by_cases hr : strStarts (pyStrip st2.inputText) renameMarker = true
      · rw [modelResponse_of_none_pair st2 _ now2 outcome
          (sendPhase_rename st2 now2 sid2 hact2 hb hr)]
        rw [renameCmd_logs]
      · have hr2 : strStarts (pyStrip st2.inputText) renameMarker = false := by
          simpa using hr
        by_cases hnew : pyStrip st2.inputText = "/new"
        · rw [modelResponse_of_none_pair st2 _ now2 outcome
            (sendPhase_new st2 now2 sid2 hact2 hb hr2 hnew)]
          rw [actionNewTab_logs]
          rw [logStatus_touchFile]
        · by_cases hclose : pyStrip st2.inputText = "/close"
          · rw [modelResponse_of_none_pair st2 _ now2 outcome
              (sendPhase_close st2 now2 sid2 hact2 hb hr2 hnew hclose)]
            have hactX : ({ st2 with inputText := "" } : AppState).active = some sid2 := hact2
            rw [actionCloseTab_eq _ _ hactX]
            exact logStatus_permDelete _ sid2 k
          · by_cases hdel : pyStrip st2.inputText = "/delete"
            · rw [modelResponse_of_none_pair st2 _ now2 outcome
                (sendPhase_delete st2 now2 sid2 hact2 hb hr2 hnew hclose hdel)]
              exact logStatus_permDelete _ sid2 k
            · have hsp2 := sendPhase_ordinary st2 now2 sid2 hact2 hb hr2 hnew hclose hdel
              rw [modelResponse_of_dispatch st2 _ true sid2 now2 outcome hsp2]
              cases outcome with
              | ok t =>
                rw [deliverPhase_ok]
                simp only [saveMessage, addMessage, removeStatusWidget]
                rw [logStatus_appendAt _ _ _ _ _ _ (by decide)]
                rw [logStatus_appendAt _ _ _ _ _ _ (by decide)]
              | error e2 =>
                rw [deliverPhase_error]
                simp only [saveMessage, addMessage, removeStatusWidget]
                rw [logStatus_appendAt _ _ _ _ _ _ (by decide)]
                rw [logStatus_appendAt _ _ _ _ _ _ (by decide)]

/-- C3: for a send whose dispatched request fails, the transient `status`
placeholder is removed and an error turn carrying the human-readable
summary (`**Error:** ...`, shown with role `assistant`) is displayed and
appended to the session log together with the user turn; and on every
path, success or failure, no record with the UI-only role `status` is ever
added to any session log. -/
theorem c3_error_turn_persisted (st : AppState) (now e : String) (sid : Nat)
    (hact : st.active = some sid) (hne : pyStrip st.inputText ≠ "")
    (hrn : strStarts (pyStrip st.inputText) renameMarker = false)
    (h1 : pyStrip st.inputText ≠ "/new") (h2 : pyStrip st.inputText ≠ "/close")
    (h3 : pyStrip st.inputText ≠ "/delete") :
    vlookup ((modelResponse st now (Except.error e)).1).logs sid
      = some ((vlookup st.logs sid).getD []
          ++ [LogEntry.ok (LogRecord.mk now "user" (pyStrip st.inputText)),
              LogEntry.ok (LogRecord.mk now "assistant" ("**Error:** `" ++ e ++ "`"))]) ∧
    vlookup ((modelResponse st now (Except.error e)).1).views sid
      = some ((vlookup st.views sid).getD []
          ++ [Bubble.mk "user" (pyStrip st.inputText),
              Bubble.mk "assistant" ("**Error:** `" ++ e ++ "`")]) ∧
    (∀ (st2 : AppState) (now2 : String) (outcome : Except String String) (k : Nat),
      logStatus ((modelResponse st2 now2 outcome).1).logs k ≤ logStatus st2.logs k) := by
  have hsp := sendPhase_ordinary st now sid hact hne hrn h1 h2 h3
  have hmr := modelResponse_of_dispatch st _ true sid now (Except.error e) hsp
  refine ⟨?_, ?_, logStatus_modelResponse⟩
  · rw [hmr]
    simp only [deliverPhase_error, saveMessage, addMessage, removeStatusWidget]
    rw [vlookup_appendAt_self, vlookup_appendAt_self]
    simp
  · rw [hmr]
    simp only [deliverPhase_error, saveMessage, addMessage, removeStatusWidget]
    rw [vlookup_appendAt_self, vlookup_mapAtKey_self, vlookup_appendAt_self,
      vlookup_appendAt_self]
    simp only [Option.map_some', Option.getD_some]
    rw [removeLastStatus_append]
    simp

/-- The two-chat example state with an ordinary prompt typed in. -/
def c3State : AppState := { exStateA with inputText := "hello" }

theorem c3_witness :
    vlookup ((modelResponse c3State "t1" (Except.error "boom")).1).logs 1
      = some ((vlookup c3State.logs 1).getD []
          ++ [LogEntry.ok (LogRecord.mk "t1" "user" (pyStrip c3State.inputText)),
              LogEntry.ok (LogRecord.mk "t1" "assistant" ("**Error:** `" ++ "boom" ++ "`"))]) :=
  (c3_error_turn_persisted c3State "t1" "boom" 1 rfl (by decide) (by decide) (by decide)
    (by decide) (by decide)).1

/-- C10: a send with no active session, or with an empty or
whitespace-only input field, is a complete no-op: the state is unchanged
(nothing displayed or persisted, the input field not cleared) and no
completion request is dispatched. -/
theorem c10_blank_send_noop (st : AppState) (now : String) (outcome : Except String String)
    (h : st.active = none ∨ pyStrip st.inputText = "") :
    (modelResponse st now outcome).1 = st ∧ (modelResponse st now outcome).2 = true ∧
    (sendPhase st now).2 = none := by
  have hsp : sendPhase st now = ((st, true), none) := by
    rcases h with h | h
    · exact sendPhase_none st now h
    · cases hact : st.active with
      | none => exact sendPhase_none st now hact
      | some sid => exact sendPhase_blank st now sid hact h
  rw [modelResponse_of_none_pair st _ now outcome hsp, hsp]
  exact ⟨rfl, rfl, rfl⟩

/-- The two-chat example state with only whitespace typed in. -/
def c10State : AppState := { exStateA with inputText := "  \t " }

theorem c10_witness : (modelResponse c10State "t" (Except.ok "x")).1 = c10State :=
  (c10_blank_send_noop c10State "t" (Except.ok "x") (Or.inr (by decide))).1

/-- C9 counterexample: the rename command marker `"/rename "` tested by
`startswith` has eight characters, not nine as the claim states. -/
theorem c9_counterexample : renameMarker.length = 8 ∧ ¬renameMarker.length = 9 := by
  decide

/-- C9 amended: command interception on the stripped input is exact-match:
the request-dispatch marker of the send phase is `none` exactly when the
stripped input starts with the eight-character marker `"/rename "` or
equals `/new`, `/close` or `/delete`; every other input — including bare
`/rename` and `/delete x` — is an ordinary prompt: displayed and persisted
as a user turn, the placeholder shown, the field cleared, and a completion
request dispatched. -/
theorem c9_command_interception (st : AppState) (now : String) (sid : Nat)
    (hact : st.active = some sid) (hne : pyStrip st.inputText ≠ "") :
    ((sendPhase st now).2 = none ↔
      (strStarts (pyStrip st.inputText) renameMarker = true ∨
        pyStrip st.inputText = "/new" ∨ pyStrip st.inputText = "/close" ∨
        pyStrip st.inputText = "/delete")) ∧
    ((strStarts (pyStrip st.inputText) renameMarker = false ∧
        pyStrip st.inputText ≠ "/new" ∧ pyStrip st.inputText ≠ "/close" ∧
        pyStrip st.inputText ≠ "/delete") →
      (sendPhase st now).2 = some sid ∧
      vlookup ((sendPhase st now).1.1).logs sid
        = some ((vlookup st.logs sid).getD []
            ++ [LogEntry.ok (LogRecord.mk now "user" (pyStrip st.inputText))]) ∧
      vlookup ((sendPhase st now).1.1).views sid
        = some ((vlookup st.views sid).getD []
            ++ [Bubble.mk "user" (pyStrip st.inputText), Bubble.mk "status" thinkingMsg]) ∧
      (sendPhase st now).1.1.inputText = "") := by
  constructor
  · constructor
    · intro hnone
      by_cases hr : strStarts (pyStrip st.inputText) renameMarker = true
      · exact Or.inl hr
      · have hr2 : strStarts (pyStrip st.inputText) renameMarker = false := by simpa using hr
        by_cases h1 : pyStrip st.inputText = "/new"
        · exact Or.inr (Or.inl h1)
        · by_cases h2 : pyStrip st.inputText = "/close"
          · exact Or.inr (Or.inr (Or.inl h2))
          · by_cases h3 : pyStrip st.inputText = "/delete"
            · exact Or.inr (Or.inr (Or.inr h3))
            · rw [sendPhase_ordinary st now sid hact hne hr2 h1 h2 h3] at hnone
              cases hnone
    · rintro (hr | h1 | h2 | h3)
      · rw [sendPhase_rename st now sid hact hne hr]
      · rw [sendPhase_new st now sid hact hne (by rw [h1]; decide) h1]
      · rw [sendPhase_close st now sid hact hne (by rw [h2]; decide) (by rw [h2]; decide) h2]
      · rw [sendPhase_delete st now sid hact hne (by rw [h3]; decide) (by rw [h3]; decide)
          (by rw [h3]; decide) h3]
  · rintro ⟨hr2, h1, h2, h3⟩
    have hsp := sendPhase_ordinary st now sid hact hne hr2 h1 h2 h3
    rw [hsp]
    refine ⟨rfl, ?_, ?_, rfl⟩
    · simp only [addMessage, saveMessage]
      rw [vlookup_appendAt_self]
    · simp only [addMessage, saveMessage]
      rw [vlookup_appendAt_self, vlookup_appendAt_self]
      simp

theorem c9_witness :
    (sendPhase { exStateA with inputText := "/rename" } "t").2 = some 1 :=
  ((c9_command_interception { exStateA with inputText := "/rename" } "t" 1 rfl (by decide)).2
    ⟨by decide, by decide, by decide, by decide⟩).1

theorem paneFind_setPaneTitle (l : List Pane) (sid : Nat) (t : String) :
    paneFind (setPaneTitle l sid t) sid = (paneFind l sid).map (fun _ => Pane.mk sid t) := by
  induction l with
  | nil => rfl
  | cons q rest ih =>
    by_cases hq : q.id = sid
    · unfold setPaneTitle paneFind
      rw [if_pos hq]
      rw [List.find?_cons_of_pos _ (by simp [hq]), List.find?_cons_of_pos _ (by simp [hq])]
      simp [hq]
    · unfold setPaneTitle paneFind
      rw [if_neg hq]
      rw [List.find?_cons_of_neg _ (by simp [hq]), List.find?_cons_of_neg _ (by simp [hq])]
      exact ih

theorem deliverPhase_panes (st : AppState) (sid : Nat) (now : String)
    (outcome : Except String String) : (deliverPhase st sid now outcome).panes = st.panes := by
  cases outcome <;> rfl

theorem actionRenameTab_empty (st : AppState) (now : String) (sid : Nat) (p : Pane)
    (hact : st.active = some sid) (hempty : pyStrip st.inputText = "")
    (hp : getPane st sid = some p) :
    (actionRenameTab st now).panes = setPaneTitle st.panes sid ("Chat " ++ now) ∧
    (actionRenameTab st now).inputText = st.inputText := by
  simp only [actionRenameTab, hact]
  rw [hempty]
  simp only [eq_self_iff_true, ite_true, if_true]
  simp only [hp]
  cases hf : List.find? (fun n => n.data == sid)
      ({ st with panes := setPaneTitle st.panes sid ("Chat " ++ now) } : AppState).treeNodes with
  | none => simp [hf]
  | some n => simp [hf]

/-- C8 counterexample: the rename key binding with no input text does not
keep the current title — with the input field empty, `action_rename_tab`
sets the active pane title to the timestamp-derived `Chat <now>`. -/
theorem c8_counterexample :
    getPane exStateA 1 = some (Pane.mk 1 "chat_001") ∧
    pyStrip exStateA.inputText = "" ∧
    getPane (actionRenameTab exStateA "Oct 12, 10:00") 1
      = some (Pane.mk 1 "Chat Oct 12, 10:00") := by
  refine ⟨rfl, rfl, ?_⟩
  decide

/-- C8 amended: a bare `/rename` command (no argument) is not intercepted —
it is sent as an ordinary prompt and the pane titles are unchanged — while
the rename key binding with no input text sets the timestamp-derived title
`Chat <now>` without clearing the field, and the new-tab welcome path
titles the fresh pane with its session id (not a timestamp). -/
theorem c8_rename_empty_input (st : AppState) (now : String) (sid : Nat) (p : Pane)
    (hact : st.active = some sid) (hempty : pyStrip st.inputText = "")
    (hp : getPane st sid = some p) :
    (getPane (actionRenameTab st now) sid = some (Pane.mk sid ("Chat " ++ now)) ∧
      (actionRenameTab st now).inputText = st.inputText) ∧
    (∀ (st2 : AppState) (outcome : Except String String),
      st2.active = some sid → pyStrip st2.inputText = "/rename" →
      (modelResponse st2 now outcome).1.panes = st2.panes ∧
      (sendPhase st2 now).2 = some sid) ∧
    (∀ st3 : AppState, getPane st3 (nextSessionId st3.logs) = none →
      getPane (actionNewTab st3).1 (nextSessionId st3.logs)
        = some (Pane.mk (nextSessionId st3.logs) (sessionName (nextSessionId st3.logs)))) := by
  obtain ⟨hpanes, hinput⟩ := actionRenameTab_empty st now sid p hact hempty hp
  refine ⟨⟨?_, hinput⟩, ?_, ?_⟩
  · show paneFind (actionRenameTab st now).panes sid = some (Pane.mk sid ("Chat " ++ now))
    rw [hpanes, paneFind_setPaneTitle]
    have : paneFind st.panes sid = some p := hp
    rw [this]
    rfl
  · intro st2 outcome hact2 hr
    have hne2 : pyStrip st2.inputText ≠ "" := by rw [hr]; decide
    have hsp := sendPhase_ordinary st2 now sid hact2 hne2 (by rw [hr]; decide)
      (by rw [hr]; decide) (by rw [hr]; decide) (by rw [hr]; decide)
    constructor
    · rw [modelResponse_of_dispatch st2 _ true sid now outcome hsp]
      show (deliverPhase _ sid now outcome).panes = st2.panes
      rw [deliverPhase_panes]
      rfl
    · rw [hsp]
  · intro st3 hnone3
    rcases createTab_cases { st3 with logs := touchFile st3.logs (nextSessionId st3.logs) }
        (nextSessionId st3.logs) true false true none with ⟨-, hg⟩ | ⟨hnone, hsnd⟩
    · rw [show getPane { st3 with logs := touchFile st3.logs (nextSessionId st3.logs) }
          (nextSessionId st3.logs) = getPane st3 (nextSessionId st3.logs) from rfl, hnone3] at hg
      cases hg
    · rw [actionNewTab_ok_eq st3 _ (snd_true_eq hsnd), withSyncing_fst]
      have hpn := (createTab_ok_proj { st3 with logs := touchFile st3.logs (nextSessionId st3.logs) }
        (nextSessionId st3.logs) true false true none hnone).2.1
      show paneFind (({ selectTreeNode { addTreeNode (createTabForSession { st3 with logs := touchFile st3.logs (nextSessionId st3.logs) } (nextSessionId st3.logs) true false true none).1 (nextSessionId st3.logs) (sessionName (nextSessionId st3.logs)) with syncing := true } (nextSessionId st3.logs) with syncing := false } : AppState).panes) (nextSessionId st3.logs) = _
    -- the panes of the final state are those created by the tab creation
      rw [show (({ selectTreeNode { addTreeNode (createTabForSession { st3 with logs := touchFile st3.logs (nextSessionId st3.logs) } (nextSessionId st3.logs) true false true none).1 (nextSessionId st3.logs) (sessionName (nextSessionId st3.logs)) with syncing := true } (nextSessionId st3.logs) with syncing := false } : AppState).panes)
          = (createTabForSession { st3 with logs := touchFile st3.logs (nextSessionId st3.logs) } (nextSessionId st3.logs) true false true none).1.panes from by
        simp [selectTreeNode_panes, addTreeNode]]
      rw [hpn]
      exact paneFind_append_self st3.panes _ _ rfl hnone3

theorem c8_witness :
    getPane (actionRenameTab exStateA "now") 1 = some (Pane.mk 1 ("Chat " ++ "now")) :=
  ((c8_rename_empty_input exStateA "now" 1 (Pane.mk 1 "chat_001") rfl (by decide) rfl).1).1

/-- The state after session 1 was permanently deleted (no pane, view,
tree node or log file for it) while its completion request was in flight. -/
def c7State : AppState :=
  { panes := [Pane.mk 2 "chat_002"], active := some 2, views := [(2, [])],
    treeNodes := [TNode.mk 2 "chat_002"], treeSelected := some 2,
    lastTreeSid := some 2, syncing := false, inputText := "", logs := [(2, [])] }

/-- C7: evaluation of the delivery path at the failing input.  When the
result of a request dispatched by session 1 arrives after session 1 was
permanently deleted, the code does not discard it: `add_message` recreates
a view entry for the dead session (via `_current_view`) and `save_message`
recreates its log file and appends the assistant turn to it. -/
theorem c7_delivery_resurrects_session :
    vlookup c7State.views 1 = none ∧ vlookup c7State.logs 1 = none ∧
    vlookup (deliverPhase c7State 1 "t" (Except.ok "hello")).views 1
      = some [Bubble.mk "assistant" "hello"] ∧
    vlookup (deliverPhase c7State 1 "t" (Except.ok "hello")).logs 1
      = some [LogEntry.ok (LogRecord.mk "t" "assistant" "hello")] := by
  refine ⟨rfl, rfl, ?_, ?_⟩ <;> decide

end TermGpt
